import Mathlib

/-!
Verification development for the `cups_lpadmin` Ansible module
(`src/system/cups_lpadmin.py`): a reconciliation engine for CUPS printers and
classes driven entirely through external commands (`lpadmin`, `lpstat`,
`lpoptions`, `lpinfo`).

Modelling choices
=================

* The managed subsystem is modelled as a query/response oracle
  `WorldQ := List String → CmdResult`: each issued command (argv list) receives
  a fixed status/stdout/stderr triple.  The oracle is static within one run;
  scenarios that span a state change are modelled by placing hypotheses on the
  oracle's answers (the module itself never caches results, so a run against a
  static oracle follows exactly the code paths determined by those answers).
* Computations live in a writer-style monad `M` that records every issued
  command (with an instrumentation tag naming the call site) and models
  `module.fail_json` / `module.exit_json` / a Python runtime error as early
  exits.
* Python semantics that the source relies on are reproduced explicitly:
  `str.strip`, `str.split`, `str.splitlines`, `str.split(sep, 1)`,
  `shlex.split` (POSIX mode), truthiness of optional strings and integers,
  dictionary insert-or-overwrite, and `sorted` on strings.
* `AnsibleModule` argument handling is modelled by `applyDefaults`, which
  applies exactly the defaults of the module's `argument_spec`.  The untyped
  identity comparison `module.params['state'] is 'present'` in `__init__` is
  modelled as string equality (an over-approximation: identity holds at most
  when equality does); the guarded condition also requires
  `printer_or_class is None`, which can never hold after defaulting, so the
  choice is not observable in any theorem below.
-/

/-! ## Python string helpers -/

/-- The apostrophe character, as a string. -/
def apos : String := (Char.ofNat 39).toString

/-- Python `str(x)` for an optional string (`None` prints as `"None"`). -/
def pyShow : Option String → String
  | some s => s
  | none => "None"

/-- Python `str(x)` for an optional integer. -/
def pyShowInt : Option Int → String
  | some n => toString n
  | none => "None"

/-- Python truthiness of an optional string: `None` and `""` are falsy. -/
def optStrTruthy : Option String → Bool
  | none => false
  | some s => s ≠ ""

/-- Python truthiness of an optional integer: `None` and `0` are falsy. -/
def optIntTruthy : Option Int → Bool
  | none => false
  | some n => n ≠ 0

/-- Python `str.strip()`: drop whitespace from both ends.  (Implemented over
the character list so that it reduces inside the kernel.) -/
def pyStrip (s : String) : String :=
  String.mk (((s.data.dropWhile Char.isWhitespace).reverse.dropWhile Char.isWhitespace).reverse)

/-- `strip_whitespace` (source line 355): `text.strip() if text else None`. -/
def strip_whitespace : Option String → Option String
  | none => none
  | some t => if t = "" then none else some (pyStrip t)

/-- Strip newline characters from both ends, Python `s.strip(chr(10))`. -/
def stripNl (s : String) : String :=
  String.mk (((s.data.dropWhile (· = '\n')).reverse.dropWhile (· = '\n')).reverse)

/-- Transcript accumulation used throughout the source:
`(acc + chr(10) + new).strip(chr(10))`. -/
def accum (acc new : String) : String := stripNl (acc ++ "\n" ++ new)

/-- Python `str.splitlines` restricted to the newline separator: every
newline ends a line, and a final fragment counts only when non-empty. -/
def pySplitlinesAux : List Char → List Char → List String
  | [], cur => if cur.isEmpty then [] else [String.mk cur.reverse]
  | c :: rest, cur =>
    if c = '\n' then String.mk cur.reverse :: pySplitlinesAux rest []
    else pySplitlinesAux rest (c :: cur)

/-- Python `str.splitlines` restricted to the newline separator. -/
def pySplitlines (s : String) : List String := pySplitlinesAux s.data []

/-- Python `str.split()` (no separator): split on runs of whitespace. -/
def pySplitWsAux : List Char → List Char → List String → List String
  | [], cur, acc => if cur = [] then acc else acc ++ [String.mk cur.reverse]
  | c :: rest, cur, acc =>
    if c.isWhitespace then
      if cur = [] then pySplitWsAux rest [] acc
      else pySplitWsAux rest [] (acc ++ [String.mk cur.reverse])
    else pySplitWsAux rest (c :: cur) acc

/-- Python `str.split()` (no separator): split on runs of whitespace. -/
def pySplitWs (s : String) : List String := pySplitWsAux s.data [] []

/-- `line.split()[0]`: the first whitespace-separated token;
`none` models the `IndexError` raised on a line with no tokens. -/
def pyFirstToken (l : String) : Option String := (pySplitWs l).head?

/-- Python `s.split(sep, 1)`: split at the first occurrence of `sep`;
the second component is `none` when `sep` does not occur. -/
def splitOnFirstAux (sep : Char) : List Char → List Char → String × Option String
  | [], pre => (String.mk pre.reverse, none)
  | c :: rest, pre =>
    if c = sep then (String.mk pre.reverse, some (String.mk rest))
    else splitOnFirstAux sep rest (c :: pre)

/-- Python `s.split(sep, 1)` for a one-character separator. -/
def splitOnFirst (s : String) (sep : Char) : String × Option String :=
  splitOnFirstAux sep s.data []

/-- Substring containment over char lists (Python `sub in s`). -/
def hasSubAux (pat : List Char) : List Char → Bool
  | [] => pat.isEmpty
  | c :: rest => pat.isPrefixOf (c :: rest) || hasSubAux pat rest

/-- Python `sub in s` (substring containment). -/
def containsSub (s pat : String) : Bool := hasSubAux pat.data s.data

/-- Lexicographic `≤` on character lists by code point (Python `str` order). -/
def charListLe : List Char → List Char → Bool
  | [], _ => true
  | _ :: _, [] => false
  | a :: as, b :: bs =>
    if a.toNat < b.toNat then true
    else if b.toNat < a.toNat then false
    else charListLe as bs

/-- Lexicographic `≤` on strings by code point. -/
def pyStrLe (x y : String) : Bool := charListLe x.data y.data

/-- Join strings with a comma-space separator. -/
def strJoinComma : List String → String
  | [] => ""
  | [x] => x
  | x :: y :: rest => x ++ ", " ++ strJoinComma (y :: rest)

/-- Python `v.startswith(chr(42))`: does the token begin with a star. -/
def startsWithStar (v : String) : Bool :=
  match v.data with
  | c :: _ => c = '*'
  | [] => false

/-- Insert a string into a sorted list (ascending). -/
def insertSorted (x : String) : List String → List String
  | [] => [x]
  | y :: ys => if pyStrLe x y then x :: y :: ys else y :: insertSorted x ys

/-- Python `sorted` on a list of strings (insertion sort; same total order). -/
def pySorted (l : List String) : List String := l.foldr insertSorted []

/-! ### `shlex.split` (POSIX mode)

States of the Python `shlex` lexer as used by `shlex.split`:
plain scanning, inside single quotes, inside double quotes, and the two
escape states.  The result is `none` when `shlex` would raise `ValueError`
(unclosed quotation or a trailing escape character). -/

inductive ShMode where
  | plain | single | double | escPlain | escDouble
deriving DecidableEq

/-- Characters `shlex` treats as token separators. -/
def isShWs (c : Char) : Bool := c = ' ' || c = '\t' || c = '\r' || c = '\n'

/-- Core loop of `shlex.split` (POSIX rules): `cur` is the reversed current
token, `started` whether a token (possibly empty, via quotes) is pending. -/
def shlexGo : List Char → ShMode → List Char → Bool → List String → Option (List String)
  | [], .plain, cur, started, acc =>
    some (if started then acc ++ [String.mk cur.reverse] else acc)
  | [], _, _, _, _ => none
  | c :: rest, .plain, cur, started, acc =>
    if c = (Char.ofNat 39) then shlexGo rest .single cur true acc
    else if c = '"' then shlexGo rest .double cur true acc
    else if c = '\\' then shlexGo rest .escPlain cur true acc
    else if isShWs c then
      if started then shlexGo rest .plain [] false (acc ++ [String.mk cur.reverse])
      else shlexGo rest .plain [] false acc
    else shlexGo rest .plain (c :: cur) true acc
  | c :: rest, .escPlain, cur, _, acc => shlexGo rest .plain (c :: cur) true acc
  | c :: rest, .single, cur, started, acc =>
    if c = (Char.ofNat 39) then shlexGo rest .plain cur started acc
    else shlexGo rest .single (c :: cur) started acc
  | c :: rest, .double, cur, started, acc =>
    if c = '"' then shlexGo rest .plain cur started acc
    else if c = '\\' then shlexGo rest .escDouble cur started acc
    else shlexGo rest .double (c :: cur) started acc
  | c :: rest, .escDouble, cur, started, acc =>
    if c = '\\' || c = '"' then shlexGo rest .double (c :: cur) started acc
    else shlexGo rest .double (c :: '\\' :: cur) started acc

/-- Python `shlex.split(s)` (POSIX); `none` models the raised `ValueError`. -/
def shlexSplit (s : String) : Option (List String) :=
  shlexGo s.data .plain [] false []

/-! ## Python dictionaries as association lists -/

/-- `d[k] = v`: overwrite an existing binding in place, else append. -/
def dictInsert (d : List (String × α)) (k : String) (v : α) : List (String × α) :=
  if d.any (fun kv => kv.1 = k) then
    d.map (fun kv => if kv.1 = k then (k, v) else kv)
  else d ++ [(k, v)]

/-- `d.get(k)` / `k in d` combined: `some v` iff the key is present. -/
def dictFind (d : List (String × α)) (k : String) : Option α :=
  (d.find? (fun kv => kv.1 = k)).map (fun kv => kv.2)

/-! ## Command results, trace instrumentation, early exits -/

/-- The `(rc, out, err)` triple returned by `module.run_command`. -/
structure CmdResult where
  rc : Int
  out : String
  err : String
deriving DecidableEq

/-- Instrumentation tag naming the `run_command` call site in the source. -/
inductive CmdTag where
  | queryLpinfo      -- `_printer_get_installed_drivers`
  | queryLpstatAll   -- `_printer_get_all_printers`
  | queryExists      -- `exists`
  | queryLpoptions   -- `cups_object_get_cups_options`
  | queryLpoptionsL  -- `printer_get_specific_options`
  | queryLpstatClass -- `class_get_current_members`
  | uninstall        -- `_cups_object_uninstall`
  | installPrinter   -- `_printer_install`
  | mandatoryPrinter -- `_printer_install_mandatory_options`
  | setOptions       -- `_printer_install_options`
  | classAdd         -- `_class_install`, member loop
  | classSet         -- `_class_install`, settings command
  | mandatoryClass   -- `_class_install_mandatory_options`
deriving DecidableEq

/-- One issued external command: call-site tag, argv, oracle answer. -/
structure TraceEntry where
  tag : CmdTag
  argv : List String
  res : CmdResult
deriving DecidableEq

/-- Query commands are read-only; every `lpadmin` call site mutates. -/
def CmdTag.isMut : CmdTag → Bool
  | .queryLpinfo | .queryLpstatAll | .queryExists
  | .queryLpoptions | .queryLpoptionsL | .queryLpstatClass => false
  | _ => true

/-- A mutating trace entry (an issued `lpadmin` command). -/
def isMutatingEntry (e : TraceEntry) : Bool := e.tag.isMut

/-- A command whose `(rc, out, err)` is accumulated into the run transcript
(everything mutating except the two mandatory-option reassertion sites). -/
def isTranscriptEntry (e : TraceEntry) : Bool :=
  match e.tag with
  | .uninstall | .installPrinter | .setOptions | .classAdd | .classSet => true
  | _ => false

/-- The subsystem oracle: an answer for every command. -/
def WorldQ : Type := List String → CmdResult

/-- Early exits of the module. -/
inductive ModuleExit where
  | failJson (msg : String)
  | exitJson (changed : Bool) (msg : String)
  | pyErr
deriving DecidableEq

/-- Result of a computation: a value or an early module exit. -/
inductive Outcome (α : Type) where
  | ok (a : α)
  | exit (e : ModuleExit)
deriving DecidableEq

/-- Writer-style computation: given the oracle, produce an outcome and the
list of issued commands. -/
def M (α : Type) : Type := WorldQ → Outcome α × List TraceEntry

def M.pure (a : α) : M α := fun _ => (.ok a, [])

def M.bind (x : M α) (g : α → M β) : M β := fun w =>
  match x w with
  | (.ok a, t1) => ((g a w).1, t1 ++ (g a w).2)
  | (.exit e, t1) => (.exit e, t1)

instance : Monad M where
  pure := M.pure
  bind := M.bind

/-- `module.run_command(argv)`. -/
def runCmd (tag : CmdTag) (argv : List String) : M CmdResult :=
  fun w => (.ok (w argv), [⟨tag, argv, w argv⟩])

/-- `module.fail_json(msg=...)`. -/
def M.failJson (msg : String) : M α := fun _ => (.exit (.failJson msg), [])

/-- `module.exit_json(...)` (Ansible fills `changed=False` when omitted). -/
def M.exitJson (changed : Bool) (msg : String) : M α :=
  fun _ => (.exit (.exitJson changed msg), [])

/-- An uncaught Python exception (IndexError/KeyError/ValueError). -/
def M.pyError : M α := fun _ => (.exit .pyErr, [])

/-- Lift a pure outcome. -/
def M.ofOutcome (o : Outcome α) : M α := fun _ => (o, [])

/-! ## Module parameters -/

/-- Caller-supplied arguments; `none` means the key was not supplied. -/
structure ModuleInput where
  state : Option String
  driver : Option String
  purge : Option Bool
  name : Option String
  printer_or_class : Option String
  uri : Option String
  enabled : Option Bool
  shared : Option Bool
  default : Option Bool
  model : Option String
  info : Option String
  location : Option String
  assign_cups_policy : Option String
  class_members : Option (List String)
  report_ipp_supply_levels : Option Bool
  report_snmp_supply_levels : Option Bool
  job_kb_limit : Option Int
  job_quota_limit : Option Int
  job_page_limit : Option Int
  options : Option (List (String × String))
deriving DecidableEq

/-- An input with every key absent. -/
def emptyInput : ModuleInput :=
  ⟨none, none, none, none, none, none, none, none, none, none,
   none, none, none, none, none, none, none, none, none, none⟩

/-- `module.params` after `AnsibleModule` applied the `argument_spec` defaults
(source lines 998-1023). -/
structure Params where
  state : String
  driver : String
  purge : Bool
  name : Option String
  printer_or_class : Option String
  uri : Option String
  enabled : Bool
  shared : Bool
  default : Bool
  model : Option String
  info : Option String
  location : Option String
  assign_cups_policy : Option String
  class_members : List String
  report_ipp_supply_levels : Bool
  report_snmp_supply_levels : Bool
  job_kb_limit : Option Int
  job_quota_limit : Option Int
  job_page_limit : Option Int
  options : List (String × String)
deriving DecidableEq

/-- Apply the `argument_spec` defaults: `state='present'`, `driver='model'`,
`purge=False`, `printer_or_class='printer'`, `enabled=True`, `shared=False`,
`default=False`, `class_members=[]`, supply levels `True`, `options={}`. -/
def applyDefaults (i : ModuleInput) : Params where
  state := i.state.getD "present"
  driver := i.driver.getD "model"
  purge := i.purge.getD false
  name := i.name
  printer_or_class := some (i.printer_or_class.getD "printer")
  uri := i.uri
  enabled := i.enabled.getD true
  shared := i.shared.getD false
  default := i.default.getD false
  model := i.model
  info := i.info
  location := i.location
  assign_cups_policy := i.assign_cups_policy
  class_members := i.class_members.getD []
  report_ipp_supply_levels := i.report_ipp_supply_levels.getD true
  report_snmp_supply_levels := i.report_snmp_supply_levels.getD true
  job_kb_limit := i.job_kb_limit
  job_quota_limit := i.job_quota_limit
  job_page_limit := i.job_page_limit
  options := i.options.getD []

/-! ## `CUPSObject` -/

/-- The object state set up by `CUPSObject.__init__` (source lines 314-353). -/
structure CUPSObject where
  driver : Option String
  name : Option String
  purge : Bool
  uri : Option String
  enabled : Bool
  shared : Bool
  default : Bool
  model : Option String
  info : Option String
  location : Option String
  options : List (String × String)
  assign_cups_policy : Option String
  class_members : List String
  report_ipp_supply_levels : Bool
  report_snmp_supply_levels : Bool
  job_kb_limit : Option Int
  job_quota_limit : Option Int
  job_page_limit : Option Int
deriving DecidableEq

/-- Error messages of the source, reproduced verbatim. -/
def missingKindMsg : String := "When state=present printer or class must be defined."

def uriRequiredMsg : String := apos ++ "URI" ++ apos ++ " is required to install printer"

def emptyClassMsg : String := "Empty class cannot be created."

def classMissingMemberMsg (printer cls : String) : String :=
  "Printer " ++ printer ++ " doesn" ++ apos ++ "t exist and cannot be added to class " ++ cls

def mamFailMsg (model : Option String) : String :=
  "Unable to determine printer make and model " ++ pyShow model

def lpstatClassFailMsg (cls err : String) : String :=
  "Error occurred while trying to " ++ apos ++ "lpstat" ++ apos ++ " class - " ++ cls ++ " - " ++ err

/-- Python `str(list_of_str)`. -/
def pyReprList (l : List String) : String :=
  "[" ++ strJoinComma (l.map (fun s => apos ++ s ++ apos)) ++ "]"

def mandatoryFailMsgPrinter (cmd : List String) (err : String) : String :=
  "Installing mandatory options for printer if defined. " ++ pyReprList cmd
    ++ " couldn" ++ apos ++ "t run. Error details - " ++ err

def mandatoryFailMsgClass (cmd : List String) (err : String) : String :=
  "Installing mandatory options for class if defined. " ++ pyReprList cmd
    ++ " couldn" ++ apos ++ "t run. Error details - " ++ err

/-- The URI normalization of `__init__` (source lines 325, 348-350):
strip, then prefix `lpd://` and suffix `/` when no scheme separator `:/`
occurs in a non-empty value. -/
def initUri (uriParam : Option String) : Option String :=
  match strip_whitespace uriParam with
  | none => none
  | some s => if s ≠ "" ∧ ¬ containsSub s ":/" then some ("lpd://" ++ s ++ "/") else some s

/-- `CUPSObject.__init__` (source lines 314-353).  The final guard models
`(module.params['state'] is 'present') and (module.params['printer_or_class']
is None)`; identity on strings is over-approximated by equality, and the
second conjunct can only hold for a `Params` value not produced by
`applyDefaults` (the argument default makes `printer_or_class` always a
string), so the guard is unreachable from `main`. -/
def CUPSObject.ofParams (p : Params) : CUPSObject where
  driver := strip_whitespace (some p.driver)
  name := strip_whitespace p.name
  purge := p.purge
  uri := initUri p.uri
  enabled := p.enabled
  shared := p.shared
  default := p.default
  model := strip_whitespace p.model
  info := strip_whitespace p.info
  location := strip_whitespace p.location
  options := p.options
  assign_cups_policy := strip_whitespace p.assign_cups_policy
  class_members := p.class_members
  report_ipp_supply_levels := p.report_ipp_supply_levels
  report_snmp_supply_levels := p.report_snmp_supply_levels
  job_kb_limit := p.job_kb_limit
  job_quota_limit := p.job_quota_limit
  job_page_limit := p.job_page_limit

def CUPSObject.make (p : Params) : Outcome CUPSObject :=
  if p.state = "present" ∧ p.printer_or_class = none then
    .exit (.failJson missingKindMsg)
  else
    .ok (CUPSObject.ofParams p)

/-- `self.name` as it appears in argv lists and format strings. -/
def cname (c : CUPSObject) : String := pyShow c.name

/-- Target of an existence probe / uninstall (the optional override). -/
def existsTarget (c : CUPSObject) (another : Option String) : String :=
  match another with
  | none => cname c
  | some o => o

/-- `exists` (source lines 649-667): `lpstat -p <name>`, true iff rc is 0. -/
def CUPSObject.existsQ (c : CUPSObject) (another : Option String) : M Bool := do
  let r ← runCmd .queryExists ["lpstat", "-p", existsTarget c another]
  pure (r.rc == 0)

/-- `_cups_object_uninstall` (source lines 633-647): `lpadmin -x <name>`. -/
def CUPSObject.uninstall_run (c : CUPSObject) (another : Option String) : M CmdResult :=
  runCmd .uninstall ["lpadmin", "-x", existsTarget c another]

/-- Parse one `key = value` segment of `lpinfo -l -m` output
(source lines 395-405); `none` models the `IndexError` on a line
without `=`. -/
def parseDriverSeg (seg : String) : Option (List (String × String)) :=
  (pySplitlines seg).foldlM
    (fun curr l =>
      match splitOnFirst l '=' with
      | (_, none) => none
      | (k, some v) => some (dictInsert curr (pyStrip k) (pyStrip v)))
    []

/-- `re.split` on the multiline-anchored pattern `Model:` (source line 385):
cut the text at every occurrence of `Model:` at the start of a line. -/
def reSplitModelAux : List Char → List Char → Bool → List (List Char)
  | [], cur, _ => [cur.reverse]
  | 'M' :: 'o' :: 'd' :: 'e' :: 'l' :: ':' :: rest, cur, true =>
    cur.reverse :: reSplitModelAux rest [] false
  | c :: rest, cur, _ => reSplitModelAux rest (c :: cur) (c = '\n')

/-- Split `lpinfo -l -m` output at line-initial `Model:` markers. -/
def reSplitModel (s : String) : List String :=
  (reSplitModelAux s.data [] true).map String.mk

/-- The catalog parse of `_printer_get_installed_drivers`
(source lines 383-407): segments keyed by their `name` field; `none` models
the raised `IndexError`/`KeyError` on malformed input. -/
def parseDriverCatalog (out : String) : Option (List (String × List (String × String))) :=
  (reSplitModel out).foldlM
    (fun drivers d =>
      if pyStrip d = "" then some drivers
      else
        match parseDriverSeg d with
        | none => none
        | some curr =>
          match dictFind curr "name" with
          | some nm => some (dictInsert drivers nm curr)
          | none => none)
    []

/-- `_printer_get_installed_drivers` (source lines 363-407). -/
def CUPSObject.printer_get_installed_drivers (_c : CUPSObject) :
    M (List (String × List (String × String))) := do
  let r ← runCmd .queryLpinfo ["lpinfo", "-l", "-m"]
  match parseDriverCatalog r.out with
  | some ds => pure ds
  | none => M.pyError

/-- `_printer_get_make_and_model` (source lines 438-462). -/
def CUPSObject.printer_get_make_and_model (c : CUPSObject) : M (Option String) := do
  if c.driver = some "model" ∧ (c.model = none ∨ c.model = some "raw") then
    pure (some "Remote Printer")
  else if c.driver = some "ppd" then
    pure none
  else do
    let ds ← c.printer_get_installed_drivers
    match c.model with
    | some m =>
      match dictFind ds m with
      | some drec =>
        match dictFind drec "make-and-model" with
        | some mam => pure (some mam)
        | none => M.pyError
      | none => M.failJson (mamFailMsg c.model)
    | none => M.failJson (mamFailMsg c.model)

/-- The argv built by `_printer_install` (source lines 464-494). -/
def CUPSObject.printer_install_cmd (c : CUPSObject) : List String :=
  ["lpadmin", "-p", cname c, "-v", pyShow c.uri]
    ++ (if c.enabled then ["-E"] else [])
    ++ (if c.shared then ["-o", "printer-is-shared=true"] else ["-o", "printer-is-shared=false"])
    ++ (if c.driver = some "model" ∧ c.model ≠ none then ["-m", pyShow c.model]
        else if c.driver = some "ppd" then ["-P", pyShow c.model]
        else [])
    ++ (if optStrTruthy c.info then ["-D", pyShow c.info] else [])
    ++ (if optStrTruthy c.location then ["-L", pyShow c.location] else [])
    ++ (if c.default then ["-d", cname c] else [])

/-- The argv built by `_printer_install_mandatory_options`
(source lines 496-527). -/
def CUPSObject.mandatory_printer_cmd (c : CUPSObject) : List String :=
  ["lpadmin", "-p", cname c]
    ++ (if c.report_ipp_supply_levels then ["-o", "cupsIPPSupplies=true"]
        else ["-o", "cupsIPPSupplies=false"])
    ++ (if c.report_snmp_supply_levels then ["-o", "cupsSNMPSupplies=true"]
        else ["-o", "cupsSNMPSupplies=false"])
    ++ (if optIntTruthy c.job_kb_limit then ["-o", "job-k-limit=" ++ pyShowInt c.job_kb_limit]
        else [])
    ++ (if optIntTruthy c.job_page_limit then ["-o", "job-page-limit=" ++ pyShowInt c.job_page_limit]
        else [])
    ++ (if optIntTruthy c.job_quota_limit then ["-o", "job-quota-period=" ++ pyShowInt c.job_quota_limit]
        else [])
    ++ (if optStrTruthy c.assign_cups_policy then ["-o", "printer-op-policy=" ++ pyShow c.assign_cups_policy]
        else [])

/-- `_printer_install_mandatory_options` (source lines 496-535): run the
command only when options were appended; abort the whole module when the
command reports a non-empty stderr; its output is never accumulated. -/
def CUPSObject.printer_install_mandatory_options (c : CUPSObject) : M Unit := do
  if c.mandatory_printer_cmd ≠ ["lpadmin", "-p", cname c] then
    let r ← runCmd .mandatoryPrinter c.mandatory_printer_cmd
    if r.err ≠ "" then M.failJson (mandatoryFailMsgPrinter c.mandatory_printer_cmd r.err)
    else pure ()
  else pure ()

/-- The argv built by `_printer_install_options` (source lines 537-550). -/
def CUPSObject.printer_install_options_cmd (c : CUPSObject) : List String :=
  ["lpadmin", "-p", cname c]
    ++ c.options.foldl (fun acc kv => acc ++ ["-o", kv.1 ++ "=" ++ kv.2]) []
    ++ (if c.default then ["-d", cname c] else [])

/-- Token list of `lpoptions -p` output folded into a Python dict:
a token without `=` maps to `None` (source lines 687-696). -/
def parseOptionTokens (toks : List String) : List (String × Option String) :=
  toks.foldl
    (fun opts s =>
      match splitOnFirst s '=' with
      | (k, none) => dictInsert opts k none
      | (k, some v) => dictInsert opts k (some v))
    []

/-- `cups_object_get_cups_options` (source lines 669-696). -/
def CUPSObject.cups_object_get_cups_options (c : CUPSObject) :
    M (List (String × Option String)) := do
  let r ← runCmd .queryLpoptions ["lpoptions", "-p", cname c]
  match shlexSplit r.out with
  | none => M.pyError
  | some toks => pure (parseOptionTokens toks)

/-- `printer_check_cups_options` (source lines 698-726): the expected
dictionary (with the eagerly computed make-and-model) must be a sub-dictionary
of the live options, compared for exact equality. -/
def CUPSObject.printer_check_cups_options (c : CUPSObject) : M Bool := do
  let mam ← c.printer_get_make_and_model
  let expected : List (String × Option String) :=
    [("device-uri", c.uri),
     ("printer-make-and-model", mam),
     ("printer-location", c.location),
     ("printer-is-shared", some (if c.shared then "true" else "false")),
     ("printer-info", if optStrTruthy c.info then c.info else c.name)]
  let live ← c.cups_object_get_cups_options
  pure (expected.all fun kv =>
    match dictFind live kv.1 with
    | none => false
    | some lv => kv.2 == lv)

/-- `class_get_current_members` (source lines 761-787): fatal on a non-empty
error stream; otherwise shell-tokenize the output and drop the FIRST TOKEN
(`temp[1:]` on the `shlex.split` result). -/
def CUPSObject.class_get_current_members (c : CUPSObject) : M (List String) := do
  let r ← runCmd .queryLpstatClass ["lpstat", "-c", cname c]
  if r.err ≠ "" then M.failJson (lpstatClassFailMsg (cname c) r.err)
  else
    match shlexSplit r.out with
    | none => M.pyError
    | some toks => pure (toks.drop 1)

/-- `class_check_cups_options` (source lines 728-759). -/
def CUPSObject.class_check_cups_options (c : CUPSObject) : M Bool := do
  let expected : List (String × Option String) :=
    [("printer-location", c.location)]
      ++ (if optStrTruthy c.info then [("printer-info", c.info)] else [])
  let live ← c.cups_object_get_cups_options
  let options_status := expected.all fun kv =>
    match dictFind live kv.1 with
    | none => false
    | some lv => kv.2 == lv
  let mems ← c.class_get_current_members
  pure (options_status && (pySorted c.class_members == pySorted mems))

/-- One printer-specific option record of `printer_get_specific_options`. -/
structure SpecOpt where
  current : Option String
  label : String
  values : List String
deriving DecidableEq

/-- Parse of `lpoptions -p <name> -l` output (source lines 820-847);
`none` models the unpacking `ValueError` on a line without `/` or `:`
and the `shlex` `ValueError`. -/
def parseSpecificOptions (out : String) : Option (List (String × SpecOpt)) :=
  (pySplitlines out).foldlM
    (fun opts l =>
      match splitOnFirst l '/' with
      | (_, none) => none
      | (nm, some r1) =>
        match splitOnFirst r1 ':' with
        | (_, none) => none
        | (label, some r2) =>
          match shlexSplit r2 with
          | none => none
          | some vals =>
            let cur := (vals.find? startsWithStar).map (fun v => String.mk (v.data.drop 1))
            some (dictInsert opts nm ⟨cur, label, vals⟩))
    []

/-- `printer_get_specific_options` (source lines 789-847). -/
def CUPSObject.printer_get_specific_options (c : CUPSObject) :
    M (List (String × SpecOpt)) := do
  let r ← runCmd .queryLpoptionsL ["lpoptions", "-p", cname c, "-l"]
  match parseSpecificOptions r.out with
  | some opts => pure opts
  | none => M.pyError

/-- `printer_check_options` (source lines 849-864): every declared option key
must be present with an exactly-equal current value. -/
def CUPSObject.printer_check_options (c : CUPSObject) : M Bool := do
  let live ← c.printer_get_specific_options
  pure (c.options.all fun kv =>
    match dictFind live kv.1 with
    | none => false
    | some srec => some kv.2 == srec.current)

/-- One iteration of the member loop of `_class_install`
(source lines 565-574). -/
def CUPSObject.class_add_member_step (c : CUPSObject)
    (acc : Option Int × String × String) (printer : String) :
    M (Option Int × String × String) := do
  let ex ← c.existsQ (some printer)
  if ex then do
    let r ← runCmd .classAdd ["lpadmin", "-p", printer, "-c", cname c]
    pure (some r.rc, accum acc.2.1 r.out, accum acc.2.2 r.err)
  else M.failJson (classMissingMemberMsg printer (cname c))

/-- The settings argv of `_class_install` (source lines 578-593). -/
def CUPSObject.class_set_cmd (c : CUPSObject) : List String :=
  ["lpadmin", "-p", cname c]
    ++ (if c.enabled then ["-E"] else [])
    ++ (if c.shared then ["-o", "printer-is-shared=true"] else ["-o", "printer-is-shared=false"])
    ++ (if optStrTruthy c.info then ["-D", pyShow c.info] else [])
    ++ (if optStrTruthy c.location then ["-L", pyShow c.location] else [])

/-- `_class_install` (source lines 552-599). -/
def CUPSObject.class_install_members (c : CUPSObject) : M (Option Int × String × String) := do
  let acc ← c.class_members.foldlM c.class_add_member_step (none, "", "")
  let ex ← c.existsQ none
  if ex then do
    let r ← runCmd .classSet c.class_set_cmd
    pure (some r.rc, accum acc.2.1 r.out, accum acc.2.2 r.err)
  else pure acc

/-- The argv built by `_class_install_mandatory_options`
(source lines 601-623). -/
def CUPSObject.mandatory_class_cmd (c : CUPSObject) : List String :=
  ["lpadmin", "-p", cname c]
    ++ (if c.report_ipp_supply_levels then ["-o", "cupsIPPSupplies=true"]
        else ["-o", "cupsIPPSupplies=false"])
    ++ (if c.report_snmp_supply_levels then ["-o", "cupsSNMPSupplies=true"]
        else ["-o", "cupsSNMPSupplies=false"])
    ++ (if optStrTruthy c.assign_cups_policy then ["-o", "printer-op-policy=" ++ pyShow c.assign_cups_policy]
        else [])

/-- `_class_install_mandatory_options` (source lines 601-631). -/
def CUPSObject.class_install_mandatory_options (c : CUPSObject) : M Unit := do
  if c.mandatory_class_cmd ≠ ["lpadmin", "-p", cname c] then
    let r ← runCmd .mandatoryClass c.mandatory_class_cmd
    if r.err ≠ "" then M.failJson (mandatoryFailMsgClass c.mandatory_class_cmd r.err)
    else pure ()
  else pure ()

/-- `printer_install` (source lines 866-911), the `state=present` printer
path.  Note the short-circuit: `self.uri is None and not self.exists()`
probes existence only when no URI was supplied. -/
def CUPSObject.printer_install (c : CUPSObject) : M (Option Int × String × String) := do
  let failEarly ← if c.uri = none then (do
      let e ← c.existsQ none
      pure (!e))
    else pure false
  if failEarly then M.failJson uriRequiredMsg
  else do
    let e1 ← c.existsQ none
    let mismatch ← if e1 then (do
        let ok ← c.printer_check_cups_options
        pure (!ok))
      else pure false
    let acc1 ← if mismatch then (do
        let r ← c.uninstall_run none
        pure ((some r.rc : Option Int), accum "" r.out, accum "" r.err))
      else pure ((none : Option Int), "", "")
    let e2 ← c.existsQ none
    let acc2 ← if !e2 then (do
        let r ← runCmd .installPrinter c.printer_install_cmd
        pure ((some r.rc : Option Int), accum acc1.2.1 r.out, accum acc1.2.2 r.err))
      else pure acc1
    let e3 ← c.existsQ none
    let _ ← if e3 then c.printer_install_mandatory_options else pure ()
    let optsOk ← c.printer_check_options
    if !optsOk then do
      let r ← runCmd .setOptions c.printer_install_options_cmd
      pure ((some r.rc : Option Int), accum acc2.2.1 r.out, accum acc2.2.2 r.err)
    else pure acc2

/-- `class_install` (source lines 938-973), the `state=present` class path. -/
def CUPSObject.class_install (c : CUPSObject) : M (Option Int × String × String) := do
  if c.class_members = [] then M.failJson emptyClassMsg
  else do
    let e1 ← c.existsQ none
    let mismatch ← if e1 then (do
        let ok ← c.class_check_cups_options
        pure (!ok))
      else pure false
    let acc1 ← if mismatch then (do
        let r ← c.uninstall_run none
        pure ((some r.rc : Option Int), accum "" r.out, accum "" r.err))
      else pure ((none : Option Int), "", "")
    let e2 ← c.existsQ none
    let acc2 ← if !e2 then (do
        let r ← c.class_install_members
        pure (r.1, accum acc1.2.1 r.2.1, accum acc1.2.2 r.2.2))
      else pure acc1
    let e3 ← c.existsQ none
    let _ ← if e3 then c.class_install_mandatory_options else pure ()
    pure acc2

/-- `cups_object_uninstall` (source lines 924-936), the `state=absent` path. -/
def CUPSObject.cups_object_uninstall (c : CUPSObject) : M (Option Int × String × String) := do
  let e ← c.existsQ none
  if e then do
    let r ← c.uninstall_run none
    pure ((some r.rc : Option Int), r.out, r.err)
  else pure ((none : Option Int), "", "")

/-- `_printer_get_all_printers` (source lines 409-421): first column of every
`lpstat -a` output line when rc is 0, else `None`. -/
def CUPSObject.printer_get_all_printers (_c : CUPSObject) : M (Option (List String)) := do
  let r ← runCmd .queryLpstatAll ["lpstat", "-a"]
  if r.rc = 0 then
    match (pySplitlines r.out).mapM pyFirstToken with
    | some ps => pure (some ps)
    | none => M.pyError
  else pure none

/-- One iteration of the purge loop (source lines 434-435): delete the
listed destination and keep only the last command's triple. -/
def purgeStep (c : CUPSObject) : (Int × String × String) → String → M (Int × String × String) :=
  fun _ p => do
    let r ← c.uninstall_run (some p)
    pure (r.rc, r.out, r.err)

/-- `_printer_purge_all_printers` (source lines 423-436): exit with
"No printers" when nothing is listed, else delete each listed destination and
return the LAST command's triple. -/
def CUPSObject.printer_purge_all_printers (c : CUPSObject) : M (Int × String × String) := do
  let all ← c.printer_get_all_printers
  match all with
  | none => M.exitJson false "No printers"
  | some [] => M.exitJson false "No printers"
  | some ps => ps.foldlM (purgeStep c) ((0 : Int), "", "")

/-- `cups_object_purge` (source lines 913-922). -/
def CUPSObject.cups_object_purge (c : CUPSObject) : M (Int × String × String) :=
  c.printer_purge_all_printers

/-! ## `main` -/

/-- The dictionary passed to the final `module.exit_json` (source lines
1031-1059): `stdout`/`stderr` only when non-empty, `changed` iff the threaded
`rc` is not `None`. -/
structure RunResult where
  state : String
  purge : Bool
  printer_or_class : Option String
  name : Option String
  changed : Bool
  stdout : Option String
  stderr : Option String
deriving DecidableEq

/-- `main` from the point where `module.params` is complete
(source lines 1025-1059). -/
def mainRun (p : Params) (checkMode : Bool) : M RunResult := do
  let c ← M.ofOutcome (CUPSObject.make p)
  let init ← if p.purge && !checkMode then (do
      let r ← c.cups_object_purge
      if !(optStrTruthy c.name) then M.exitJson true "All printers purged"
      else pure ((some r.1 : Option Int), r.2.1, r.2.2))
    else pure ((none : Option Int), "", "")
  let res ← if p.state = "present" ∧ p.printer_or_class = some "printer" then
      c.printer_install
    else if p.state = "present" ∧ p.printer_or_class = some "class" then
      c.class_install
    else if p.state = "absent" then
      c.cups_object_uninstall
    else pure init
  pure
    { state := p.state
      purge := p.purge
      printer_or_class := p.printer_or_class
      name := c.name
      changed := res.1.isSome
      stdout := if res.2.1 ≠ "" then some res.2.1 else none
      stderr := if res.2.2 ≠ "" then some res.2.2 else none }

/-- One full module invocation (check mode off, as in a normal run). -/
def runModule (i : ModuleInput) : M RunResult := mainRun (applyDefaults i) false

/-- The class object of the `class_get_current_members` docstring example. -/
def c3Obj : CUPSObject where
  driver := some "model"
  name := some "TestClass"
  purge := false
  uri := none
  enabled := true
  shared := false
  default := false
  model := none
  info := none
  location := none
  options := []
  assign_cups_policy := none
  class_members := ["TestPrinter1", "TestPrinter2"]
  report_ipp_supply_levels := true
  report_snmp_supply_levels := true
  job_kb_limit := none
  job_quota_limit := none
  job_page_limit := none

/-- Oracle answering the member query with the docstring's own example
output of `lpstat -c` (source lines 763-767). -/
def c3World : WorldQ := fun argv =>
  if argv = ["lpstat", "-c", "TestClass"] then
    ⟨0, "members of class TestClass:\n\tTestPrinter1\n\tTestPrinter2\n", ""⟩
  else ⟨0, "", ""⟩

/-- Concrete witness for C7. -/
def constWorld : WorldQ := fun _ => ⟨0, "", ""⟩

/-- Input omitting `printer_or_class` while requesting `state=present`. -/
def c9Input : ModuleInput :=
  { emptyInput with
    state := some "present"
    name := some "zebra"
    uri := some "ipp://h/"
    model := some "raw"
    info := some "MFP"
    location := some "Lib" }

/-- Oracle describing a live printer `zebra` that matches `c9Input` exactly. -/
def c9World : WorldQ := fun argv =>
  if argv = ["lpoptions", "-p", "zebra"] then
    ⟨0, "device-uri=ipp://h/ printer-make-and-model=" ++ apos ++ "Remote Printer" ++ apos
          ++ " printer-location=Lib printer-is-shared=false printer-info=MFP", ""⟩
  else ⟨0, "", ""⟩

/-- Purge-only invocation (no object name declared). -/
def c6Input : ModuleInput := { emptyInput with purge := some true }

/-- Oracle listing three existing printers. -/
def c6World : WorldQ := fun argv =>
  if argv = ["lpstat", "-a"] then ⟨0, "p1 accepting\np2 accepting\np3 accepting\n", ""⟩
  else ⟨0, "", ""⟩

/-- The `lpinfo -l -m` catalog query argv. -/
def lpinfoCmd : List String := ["lpinfo", "-l", "-m"]

/-- The parsed driver catalog an oracle reports. -/
def catalogOf (w : WorldQ) : Option (List (String × List (String × String))) :=
  parseDriverCatalog (w lpinfoCmd).out

/-- The parsed `lpoptions -p <name>` dictionary an oracle reports. -/
def liveOptsOf (w : WorldQ) (n : String) : Option (List (String × Option String)) :=
  (shlexSplit (w ["lpoptions", "-p", n]).out).map parseOptionTokens

/-- A PPD-mode printer whose live state matches every expected key except
`printer-make-and-model`. -/
def c4Obj : CUPSObject where
  driver := some "ppd"
  name := some "TestPrinter"
  purge := false
  uri := some "ipp://h/"
  enabled := true
  shared := false
  default := false
  model := some "x.ppd"
  info := some "MFP"
  location := some "Lib"
  options := []
  assign_cups_policy := none
  class_members := []
  report_ipp_supply_levels := true
  report_snmp_supply_levels := true
  job_kb_limit := none
  job_quota_limit := none
  job_page_limit := none

/-- Live options carrying a make-and-model string. -/
def c4WorldA : WorldQ := fun argv =>
  if argv = ["lpoptions", "-p", "TestPrinter"] then
    ⟨0, "device-uri=ipp://h/ printer-make-and-model=" ++ apos ++ "HP X" ++ apos
          ++ " printer-location=Lib printer-is-shared=false printer-info=MFP", ""⟩
  else ⟨0, "", ""⟩

/-- The same live options except `printer-make-and-model` carries no value. -/
def c4WorldB : WorldQ := fun argv =>
  if argv = ["lpoptions", "-p", "TestPrinter"] then
    ⟨0, "device-uri=ipp://h/ printer-make-and-model"
          ++ " printer-location=Lib printer-is-shared=false printer-info=MFP", ""⟩
  else ⟨0, "", ""⟩

/-- A catalog-mode printer declaring the model `drv1`. -/
def c4wObj : CUPSObject where
  driver := some "model"
  name := some "P"
  purge := false
  uri := some "ipp://h/"
  enabled := true
  shared := false
  default := false
  model := some "drv1"
  info := none
  location := none
  options := []
  assign_cups_policy := none
  class_members := []
  report_ipp_supply_levels := true
  report_snmp_supply_levels := true
  job_kb_limit := none
  job_quota_limit := none
  job_page_limit := none

/-- Oracle whose driver catalog lists `drv1`. -/
def c4wWorld : WorldQ := fun argv =>
  if argv = ["lpinfo", "-l", "-m"] then
    ⟨0, "Model:  name = drv1\n        make-and-model = Fancy Driver 1\n", ""⟩
  else ⟨0, "", ""⟩

/-- Declaration of class `K` whose second member does not exist. -/
def c5Input : ModuleInput :=
  { emptyInput with
    state := some "present"
    printer_or_class := some "class"
    name := some "K"
    class_members := some ["p1", "missing"] }

/-- Oracle: `p1` exists, `missing` and the class `K` do not. -/
def c5World : WorldQ := fun argv =>
  if argv = ["lpstat", "-p", "p1"] then ⟨0, "printer p1 idle.", ""⟩
  else if argv = ["lpstat", "-p", "K"] then ⟨1, "", ""⟩
  else if argv = ["lpstat", "-p", "missing"] then ⟨1, "", ""⟩
  else ⟨0, "", ""⟩

/-- The trace produced by the member loop over a list of existing members:
one existence probe and one add command per member, in declared order. -/
def memberProbeTrace (c : CUPSObject) (w : WorldQ) : List String → List TraceEntry
  | [] => []
  | p :: rest =>
    ⟨.queryExists, ["lpstat", "-p", p], w ["lpstat", "-p", p]⟩ ::
      ⟨.classAdd, ["lpadmin", "-p", p, "-c", cname c], w ["lpadmin", "-p", p, "-c", cname c]⟩ ::
        memberProbeTrace c w rest

/-- A converged raw printer declaration used as a concrete scenario. -/
def c10Obj : CUPSObject where
  driver := some "model"
  name := some "zebra"
  purge := false
  uri := some "ipp://h/"
  enabled := true
  shared := false
  default := false
  model := some "raw"
  info := some "MFP"
  location := some "Lib"
  options := []
  assign_cups_policy := none
  class_members := []
  report_ipp_supply_levels := true
  report_snmp_supply_levels := true
  job_kb_limit := none
  job_quota_limit := none
  job_page_limit := none

/-- Oracle: `zebra` exists and matches, and the reassertion command reports
stderr "boom". -/
def c10World : WorldQ := fun argv =>
  if argv = ["lpadmin", "-p", "zebra", "-o", "cupsIPPSupplies=true",
             "-o", "cupsSNMPSupplies=true"] then
    ⟨0, "ignored-output", "boom"⟩
  else if argv = ["lpoptions", "-p", "zebra"] then
    ⟨0, "device-uri=ipp://h/ printer-make-and-model=" ++ apos ++ "Remote Printer" ++ apos
          ++ " printer-location=Lib printer-is-shared=false printer-info=MFP", ""⟩
  else ⟨0, "", ""⟩

/-- The converged printer declaration (second run of the idempotence
scenario). -/
def c1Input : ModuleInput :=
  { emptyInput with
    state := some "present"
    printer_or_class := some "printer"
    name := some "zebra"
    uri := some "ipp://h/"
    model := some "raw"
    info := some "MFP"
    location := some "Lib" }

/-- Oracle describing the subsystem after the first run converged it. -/
def c1World : WorldQ := fun argv =>
  if argv = ["lpoptions", "-p", "zebra"] then
    ⟨0, "device-uri=ipp://h/ printer-make-and-model=" ++ apos ++ "Remote Printer" ++ apos
          ++ " printer-location=Lib printer-is-shared=false printer-info=MFP", ""⟩
  else ⟨0, "", ""⟩

/-- The trace of the converged second run of `c1Input` against `c1World`. -/
def c1Trace : List TraceEntry :=
  [⟨.queryExists, ["lpstat", "-p", "zebra"], c1World ["lpstat", "-p", "zebra"]⟩,
   ⟨.queryLpoptions, ["lpoptions", "-p", "zebra"], c1World ["lpoptions", "-p", "zebra"]⟩,
   ⟨.queryExists, ["lpstat", "-p", "zebra"], c1World ["lpstat", "-p", "zebra"]⟩,
   ⟨.queryExists, ["lpstat", "-p", "zebra"], c1World ["lpstat", "-p", "zebra"]⟩,
   ⟨.mandatoryPrinter,
    ["lpadmin", "-p", "zebra", "-o", "cupsIPPSupplies=true", "-o", "cupsSNMPSupplies=true"],
    c1World ["lpadmin", "-p", "zebra", "-o", "cupsIPPSupplies=true",
             "-o", "cupsSNMPSupplies=true"]⟩,
   ⟨.queryLpoptionsL, ["lpoptions", "-p", "zebra", "-l"],
    c1World ["lpoptions", "-p", "zebra", "-l"]⟩]

/-! ## Proof toolkit: applying `M`-computations to an oracle -/

@[simp] theorem M_bind_apply (x : M α) (g : α → M β) (w : WorldQ) :
    (x >>= g) w =
      (match x w with
       | (.ok a, t1) => ((g a w).1, t1 ++ (g a w).2)
       | (.exit e, t1) => (.exit e, t1)) := rfl

@[simp] theorem M_pure_apply (a : α) (w : WorldQ) :
    (Pure.pure a : M α) w = (.ok a, []) := rfl

@[simp] theorem runCmd_apply (tag : CmdTag) (argv : List String) (w : WorldQ) :
    runCmd tag argv w = (.ok (w argv), [⟨tag, argv, w argv⟩]) := rfl

@[simp] theorem M_failJson_apply (msg : String) (w : WorldQ) :
    (M.failJson msg : M α) w = (.exit (.failJson msg), []) := rfl

@[simp] theorem M_exitJson_apply (b : Bool) (msg : String) (w : WorldQ) :
    (M.exitJson b msg : M α) w = (.exit (.exitJson b msg), []) := rfl

@[simp] theorem M_pyError_apply (w : WorldQ) :
    (M.pyError : M α) w = (.exit .pyErr, []) := rfl

@[simp] theorem M_ofOutcome_apply (o : Outcome α) (w : WorldQ) :
    (M.ofOutcome o) w = (o, []) := rfl

@[simp] theorem M_ite_apply (c : Prop) [Decidable c] (x y : M α) (w : WorldQ) :
    (if c then x else y) w = if c then x w else y w := by
  split <;> rfl

/-- A trace without mutating entries has no transcript entries either. -/
theorem no_mut_no_transcript {t : List TraceEntry}
    (h : t.filter isMutatingEntry = []) : t.any isTranscriptEntry = false := by
  induction t with
  | nil => rfl
  | cons e rest ih =>
    by_cases hm : isMutatingEntry e = true
    · simp [List.filter_cons, hm] at h
    · have hrest : rest.filter isMutatingEntry = [] := by
        simpa [List.filter_cons, hm] using h
      have ht : isTranscriptEntry e = false := by
        rcases e with ⟨tag, argv, res⟩
        cases tag <;> first
          | rfl
          | (exfalso; exact hm (by rfl))
      simp [List.any_cons, ht, ih hrest]

/-! ## C8: URI normalization -/

/-- C8 (confirmed): for every non-empty declared connection URI (already
whitespace-trimmed), the `__init__` normalization rewrites a value without the
scheme separator `:/` to `lpd://<value>/` and leaves a value containing `:/`
unchanged (source lines 348-350). -/
theorem c8_uri_normalization (s : String) (h1 : pyStrip s = s) (h2 : s ≠ "") :
    (containsSub s ":/" = false → initUri (some s) = some ("lpd://" ++ s ++ "/"))
    ∧ (containsSub s ":/" = true → initUri (some s) = some s) := by
  constructor <;> intro hc <;> simp [initUri, strip_whitespace, h1, h2, hc]

/-- Witness for C8 at the two inputs named by the specification. -/
theorem c8_uri_normalization_witness :
    initUri (some "192.168.1.2") = some "lpd://192.168.1.2/"
    ∧ initUri (some "ipp://host/printers/x") = some "ipp://host/printers/x" :=
  ⟨(c8_uri_normalization "192.168.1.2" (by decide) (by decide)).1 (by decide),
   (c8_uri_normalization "ipp://host/printers/x" (by decide) (by decide)).2 (by decide)⟩

/-! ## C3: the member-list parse drops a token, not the header line -/

/-- C3 (code bug): on the tool's documented output, `class_get_current_members`
drops only the first shell token (`temp[1:]` after `shlex.split`), so the
remaining words of the header line are returned as member names, contradicting
the function's own docstring ("The first line is skipped.") and the claim. -/
theorem c3_member_list_first_token_bug :
    (CUPSObject.class_get_current_members c3Obj c3World).1 =
      .ok ["of", "class", "TestClass:", "TestPrinter1", "TestPrinter2"]
    ∧ (CUPSObject.class_get_current_members c3Obj c3World).1 ≠
      .ok ["TestPrinter1", "TestPrinter2"] := by
  constructor
  · rfl
  · decide

/-! ## C7: empty class rejection -/

/-- C7 (confirmed): a `state=present` declaration of a class with an empty
member list fails with the fatal "Empty class cannot be created." error and
issues no command at all (source lines 951-952). -/
theorem c7_empty_class_rejected (i : ModuleInput) (w : WorldQ)
    (hstate : i.state = none ∨ i.state = some "present")
    (hpoc : i.printer_or_class = some "class")
    (hmem : i.class_members = none ∨ i.class_members = some [])
    (hpurge : i.purge = none ∨ i.purge = some false) :
    runModule i w = (.exit (.failJson emptyClassMsg), []) := by
  rcases hstate with h1 | h1 <;> rcases hmem with h2 | h2 <;>
    rcases hpurge with h3 | h3 <;>
      simp only [runModule, mainRun, applyDefaults, h1, h2, h3, hpoc] <;> rfl

/-- Witness for C7 at a concrete declaration. -/
theorem c7_empty_class_rejected_witness :
    runModule { emptyInput with
                  state := some "present"
                  printer_or_class := some "class"
                  name := some "TestClass" } constWorld
      = (.exit (.failJson emptyClassMsg), []) :=
  c7_empty_class_rejected _ constWorld (Or.inr rfl) rfl (Or.inl rfl) (Or.inl rfl)

/-! ## C9: omitted destination kind -/

set_option maxRecDepth 8000 in
/-- C9 (counterexample): omitting the destination kind under `state=present`
does NOT fail: the argument default fills `printer_or_class='printer'` and the
run completes normally as a printer operation (here: converged, changed=false),
with no validation error about a missing kind. -/
theorem c9_counterexample :
    (runModule c9Input c9World).1 =
      .ok { state := "present", purge := false, printer_or_class := some "printer",
            name := some "zebra", changed := false, stdout := none, stderr := none } := by
  decide

/-- C9 (amended): a declaration omitting `printer_or_class` behaves exactly as
one declaring `printer`, for every oracle; the `__init__` guard for a missing
kind is unreachable because `AnsibleModule` defaulting always supplies one
(source lines 352-353, 1004). -/
theorem c9_omitted_kind_defaults_to_printer (i : ModuleInput) (w : WorldQ)
    (h : i.printer_or_class = none) :
    runModule i w = runModule { i with printer_or_class := some "printer" } w
    ∧ ∃ c, CUPSObject.make (applyDefaults i) = .ok c := by
  constructor
  · have : applyDefaults i = applyDefaults { i with printer_or_class := some "printer" } := by
      simp [applyDefaults, h]
    simp [runModule, this]
  · have hcond : ¬ ((applyDefaults i).state = "present"
        ∧ (applyDefaults i).printer_or_class = none) := by
      simp [applyDefaults]
    exact ⟨_, by unfold CUPSObject.make; rw [if_neg hcond]⟩

/-- Witness for C9's amended theorem at a concrete input. -/
theorem c9_omitted_kind_witness :
    runModule c9Input c9World
      = runModule { c9Input with printer_or_class := some "printer" } c9World
    ∧ ∃ c, CUPSObject.make (applyDefaults c9Input) = .ok c :=
  c9_omitted_kind_defaults_to_printer c9Input c9World rfl

/-! ## Symbolic-execution helpers -/

theorem bind_trace_eq (x : M α) (g : α → M β) (w : WorldQ) (a : α) (t : List TraceEntry)
    (h : x w = (.ok a, t)) : (x >>= g) w = ((g a w).1, t ++ (g a w).2) := by
  show M.bind x g w = _
  simp only [M.bind, h]

theorem bind_trace_exit (x : M α) (g : α → M β) (w : WorldQ) (e : ModuleExit)
    (t : List TraceEntry) (h : x w = (.exit e, t)) : (x >>= g) w = (.exit e, t) := by
  show M.bind x g w = _
  simp only [M.bind, h]

/-- `CUPSObject.__init__` never fails on defaulted parameters: the argument
default always supplies a destination kind. -/
theorem make_applyDefaults (i : ModuleInput) :
    CUPSObject.make (applyDefaults i) = .ok (CUPSObject.ofParams (applyDefaults i)) := by
  unfold CUPSObject.make
  rw [if_neg]
  simp [applyDefaults]

/-! ## C6: purge semantics -/

/-- The purge loop deletes each listed destination in order (one `lpadmin -x`
per name) and never exits early. -/
theorem purge_fold (c : CUPSObject) (w : WorldQ) (ps : List String) :
    ∀ acc : Int × String × String,
      ∃ v, (List.foldlM (purgeStep c) acc ps) w
        = (.ok v, ps.map fun p => ⟨.uninstall, ["lpadmin", "-x", p], w ["lpadmin", "-x", p]⟩) := by
  induction ps with
  | nil => exact fun acc => ⟨acc, rfl⟩
  | cons p rest ih =>
    intro acc
    obtain ⟨v, hv⟩ :=
      ih ((w ["lpadmin", "-x", p]).rc, (w ["lpadmin", "-x", p]).out, (w ["lpadmin", "-x", p]).err)
    refine ⟨v, ?_⟩
    simp [List.foldlM, purgeStep, CUPSObject.uninstall_run, existsTarget, hv]

/-- C6 (confirmed): with purge requested, the run first issues the `lpstat -a`
enumeration followed by exactly one `lpadmin -x` delete per listed destination,
in order, before anything else; with no (truthy) object name it then terminates
immediately ("All printers purged", changed=true); with nothing listed it
terminates immediately after the enumeration ("No printers"). -/
theorem c6_purge_semantics (i : ModuleInput) (w : WorldQ) (ps : List String)
    (hpurge : i.purge = some true)
    (hrc : (w ["lpstat", "-a"]).rc = 0)
    (hparse : (pySplitlines (w ["lpstat", "-a"]).out).mapM pyFirstToken = some ps) :
    (runModule i w).2.take (1 + ps.length) =
        ⟨.queryLpstatAll, ["lpstat", "-a"], w ["lpstat", "-a"]⟩ ::
          ps.map (fun p => ⟨.uninstall, ["lpadmin", "-x", p], w ["lpadmin", "-x", p]⟩)
    ∧ (ps = [] →
        runModule i w =
          (.exit (.exitJson false "No printers"),
           [⟨.queryLpstatAll, ["lpstat", "-a"], w ["lpstat", "-a"]⟩]))
    ∧ (optStrTruthy (strip_whitespace i.name) = false → ps ≠ [] →
        runModule i w =
          (.exit (.exitJson true "All printers purged"),
           ⟨.queryLpstatAll, ["lpstat", "-a"], w ["lpstat", "-a"]⟩ ::
             ps.map (fun p => ⟨.uninstall, ["lpadmin", "-x", p], w ["lpadmin", "-x", p]⟩))) := by
  have hname : (CUPSObject.ofParams (applyDefaults i)).name = strip_whitespace i.name := rfl
  have hP : (applyDefaults i).purge = true := by simp [applyDefaults, hpurge]
  rcases ps with _ | ⟨p0, rest⟩
  · -- nothing listed: the purge exits with "No printers"
    have hrun : runModule i w =
        (.exit (.exitJson false "No printers"),
         [⟨.queryLpstatAll, ["lpstat", "-a"], w ["lpstat", "-a"]⟩]) := by
      simp only [runModule, mainRun, make_applyDefaults, M_ofOutcome_apply, M_bind_apply,
        CUPSObject.cups_object_purge, CUPSObject.printer_purge_all_printers,
        CUPSObject.printer_get_all_printers, runCmd_apply, M_ite_apply, hP,
        hparse, M_pure_apply, M_exitJson_apply]
      simp [hrc, hparse]
    refine ⟨?_, fun _ => hrun, fun _ hne => absurd rfl hne⟩
    rw [hrun]
    simp
  · -- at least one destination listed
    obtain ⟨v, hv⟩ := purge_fold (CUPSObject.ofParams (applyDefaults i)) w (p0 :: rest)
      ((0 : Int), "", "")
    by_cases hn : optStrTruthy (strip_whitespace i.name) = true
    · -- a name is declared: the purge trace is followed by the dispatch trace
      have hshape : ∃ o t2, runModule i w =
          (o, (⟨.queryLpstatAll, ["lpstat", "-a"], w ["lpstat", "-a"]⟩ ::
                (p0 :: rest).map
                  (fun p => ⟨.uninstall, ["lpadmin", "-x", p], w ["lpadmin", "-x", p]⟩)) ++ t2) := by
        simp only [runModule, mainRun, make_applyDefaults, M_ofOutcome_apply, M_bind_apply,
          CUPSObject.cups_object_purge, CUPSObject.printer_purge_all_printers,
          CUPSObject.printer_get_all_printers, runCmd_apply, M_ite_apply, hP,
          hparse, M_pure_apply, M_exitJson_apply, hname, hn, hrc, hv]
        simp only [hv, if_true, Bool.not_false, Bool.and_self, Bool.not_true, if_false,
          Bool.false_eq_true, List.nil_append, List.cons_append, List.map_cons,
          List.singleton_append, List.append_nil, List.append_assoc, reduceIte]
        repeat' first
          | exact ⟨_, _, rfl⟩
          | split
      obtain ⟨o, t2, hrun⟩ := hshape
      have hlen : ((p0 :: rest).map
          (fun p => (⟨.uninstall, ["lpadmin", "-x", p], w ["lpadmin", "-x", p]⟩ : TraceEntry))).length
          = (p0 :: rest).length := List.length_map _ _
      refine ⟨?_, fun h => absurd h (List.cons_ne_nil p0 rest), fun hfalse _ => ?_⟩
      · rw [hrun]
        rw [show (1 + (p0 :: rest).length)
            = ((⟨.queryLpstatAll, ["lpstat", "-a"], w ["lpstat", "-a"]⟩ : TraceEntry) ::
                (p0 :: rest).map
                  (fun p => ⟨.uninstall, ["lpadmin", "-x", p], w ["lpadmin", "-x", p]⟩)).length
          from by simp [Nat.add_comm]]
        exact List.take_left _ _
      · rw [hfalse] at hn
        exact absurd hn (by decide)
    · -- no name: the run ends right after the purge
      have hn' : optStrTruthy (strip_whitespace i.name) = false := by
        revert hn
        cases optStrTruthy (strip_whitespace i.name) <;> simp
      have hrun : runModule i w =
          (.exit (.exitJson true "All printers purged"),
           ⟨.queryLpstatAll, ["lpstat", "-a"], w ["lpstat", "-a"]⟩ ::
             (p0 :: rest).map
               (fun p => ⟨.uninstall, ["lpadmin", "-x", p], w ["lpadmin", "-x", p]⟩)) := by
        simp only [runModule, mainRun, make_applyDefaults, M_ofOutcome_apply, M_bind_apply,
          CUPSObject.cups_object_purge, CUPSObject.printer_purge_all_printers,
          CUPSObject.printer_get_all_printers, runCmd_apply, M_ite_apply, hP,
          hparse, M_pure_apply, M_exitJson_apply, hname, hn', hrc, hv]
        simp [hrc, hparse, hv, hn']
      refine ⟨?_, fun h => absurd h (List.cons_ne_nil p0 rest), fun _ _ => hrun⟩
      rw [hrun]
      rw [show (1 + (p0 :: rest).length)
          = ((⟨.queryLpstatAll, ["lpstat", "-a"], w ["lpstat", "-a"]⟩ : TraceEntry) ::
              (p0 :: rest).map
                (fun p => ⟨.uninstall, ["lpadmin", "-x", p], w ["lpadmin", "-x", p]⟩)).length
        from by simp [Nat.add_comm]]
      exact List.take_length _

/-- Witness for C6: three listed printers yield exactly three deletes and an
immediate "All printers purged" termination. -/
theorem c6_purge_witness :
    runModule c6Input c6World =
      (.exit (.exitJson true "All printers purged"),
       ⟨.queryLpstatAll, ["lpstat", "-a"], c6World ["lpstat", "-a"]⟩ ::
         ["p1", "p2", "p3"].map
           (fun p => ⟨.uninstall, ["lpadmin", "-x", p], c6World ["lpadmin", "-x", p]⟩)) :=
  (c6_purge_semantics c6Input c6World ["p1", "p2", "p3"] rfl (by decide) (by decide)).2.2
    (by decide) (by decide)

/-! ## C4: make-and-model resolution policy -/

set_option maxRecDepth 8000 in
/-- C4 (counterexample): in PPD driver mode the make-and-model check is NOT
skipped: against live options where every other expected key matches exactly,
the comparison reports a mismatch as soon as the live `printer-make-and-model`
carries any string value (expected value is Python `None`), and matches only
when the live key carries no value. -/
theorem c4_counterexample :
    (CUPSObject.printer_check_cups_options c4Obj c4WorldA).1 = .ok false
    ∧ (CUPSObject.printer_check_cups_options c4Obj c4WorldB).1 = .ok true := by
  decide

/-- C4 (amended): the make-and-model resolution policy of
`_printer_get_make_and_model` / `printer_check_cups_options`:
(a) catalog driver mode with a raw or undeclared model yields the fixed
sentinel "Remote Printer" without touching the subsystem;
(b) PPD driver mode yields the absent value (Python `None`) — the comparison
is NOT skipped: any live `printer-make-and-model` string value then causes a
mismatch;
(c) a named catalog model must resolve through the parsed `lpinfo -l -m`
catalog, else the whole module fails fatally naming the model. -/
theorem c4_make_and_model_policy (c : CUPSObject) (w : WorldQ) :
    (c.driver = some "model" → (c.model = none ∨ c.model = some "raw") →
      c.printer_get_make_and_model w = (.ok (some "Remote Printer"), []))
    ∧ (c.driver = some "ppd" →
        c.printer_get_make_and_model w = (.ok none, [])
        ∧ (∀ live s, liveOptsOf w (cname c) = some live →
            dictFind live "printer-make-and-model" = some (some s) →
            (c.printer_check_cups_options w).1 = .ok false))
    ∧ (c.driver = some "model" → ∀ m, c.model = some m → m ≠ "raw" →
        (catalogOf w = none → (c.printer_get_make_and_model w).1 = .exit .pyErr)
        ∧ (∀ ds, catalogOf w = some ds →
            (dictFind ds m = none →
              c.printer_get_make_and_model w =
                (.exit (.failJson (mamFailMsg (some m))),
                 [⟨.queryLpinfo, lpinfoCmd, w lpinfoCmd⟩]))
            ∧ (∀ drec mam, dictFind ds m = some drec →
                dictFind drec "make-and-model" = some mam →
                c.printer_get_make_and_model w =
                  (.ok (some mam), [⟨.queryLpinfo, lpinfoCmd, w lpinfoCmd⟩])))) := by
  refine ⟨?_, ?_, ?_⟩
  · intro hdrv hm
    rcases hm with hm | hm <;>
      simp [CUPSObject.printer_get_make_and_model, hdrv, hm]
  · intro hdrv
    have hmam : c.printer_get_make_and_model w = (.ok none, []) := by
      simp [CUPSObject.printer_get_make_and_model, hdrv]
    refine ⟨hmam, ?_⟩
    intro live s hlive hfind
    obtain ⟨toks, htoks, hpt⟩ := Option.map_eq_some'.mp hlive
    simp only [CUPSObject.printer_check_cups_options, M_bind_apply, hmam,
      CUPSObject.cups_object_get_cups_options, runCmd_apply, M_pure_apply]
    simp only [htoks, hpt, M_pure_apply, List.nil_append]
    simp [List.all_cons, hfind]
  · intro hdrv m hm hraw
    have hcond : ¬ (c.driver = some "model" ∧ (c.model = none ∨ c.model = some "raw")) := by
      simp [hdrv, hm, hraw]
    have hppd : ¬ (c.driver = some "ppd") := by simp [hdrv]
    constructor
    · intro hcat
      simp [CUPSObject.printer_get_make_and_model, hcond, hppd,
        CUPSObject.printer_get_installed_drivers, catalogOf, lpinfoCmd] at hcat ⊢
      simp [hcat]
    · intro ds hcat
      have hcat' : parseDriverCatalog (w ["lpinfo", "-l", "-m"]).out = some ds := hcat
      constructor
      · intro hfind
        simp [CUPSObject.printer_get_make_and_model, hcond, hppd,
          CUPSObject.printer_get_installed_drivers, hcat', hm, hfind, lpinfoCmd]
        exact fun _ => hraw
      · intro drec mam hfind hmam
        simp [CUPSObject.printer_get_make_and_model, hcond, hppd,
          CUPSObject.printer_get_installed_drivers, hcat', hm, hfind, hmam, lpinfoCmd]
        exact fun _ => hraw

set_option maxRecDepth 8000 in
/-- Witness for C4: a declared catalog model resolves through the parsed
catalog to its make-and-model string. -/
theorem c4_make_and_model_witness :
    CUPSObject.printer_get_make_and_model c4wObj c4wWorld =
      (.ok (some "Fancy Driver 1"), [⟨.queryLpinfo, lpinfoCmd, c4wWorld lpinfoCmd⟩]) :=
  (((c4_make_and_model_policy c4wObj c4wWorld).2.2 rfl "drv1" rfl
      (by decide)).2 [("drv1", [("name", "drv1"), ("make-and-model", "Fancy Driver 1")])]
      (by decide)).2 [("name", "drv1"), ("make-and-model", "Fancy Driver 1")] "Fancy Driver 1"
      (by decide) (by decide)

/-! ## C5: missing class member -/

set_option maxRecDepth 8000 in
/-- C5 (counterexample): installing class `K` with members `[p1, missing]`
fails naming `missing`, but the add-to-class command for `p1` has already been
issued before the failure — refuting "no add-to-class mutation precedes the
existence failure". -/
theorem c5_counterexample :
    (runModule c5Input c5World).1 =
      .exit (.failJson (classMissingMemberMsg "missing" "K"))
    ∧ ((runModule c5Input c5World).2.filter
          (fun e => e.tag = CmdTag.classAdd)).map (fun e => e.argv)
        = [["lpadmin", "-p", "p1", "-c", "K"]] := by
  decide

/-- The add commands inside a member-loop trace, in order. -/
theorem memberProbeTrace_adds (c : CUPSObject) (w : WorldQ) (pre : List String) :
    ((memberProbeTrace c w pre).filter (fun e => e.tag = CmdTag.classAdd)).map (fun e => e.argv)
      = pre.map (fun p => ["lpadmin", "-p", p, "-c", cname c]) := by
  induction pre with
  | nil => rfl
  | cons p rest ih => simp [memberProbeTrace, List.filter_cons, ih]

/-- The member loop of `_class_install` stops with the fatal missing-member
error exactly when iteration reaches the first nonexistent member, after
issuing one add command per earlier member. -/
theorem class_add_fold (c : CUPSObject) (w : WorldQ) (pre : List String) (m : String)
    (post : List String)
    (hpre : ∀ p ∈ pre, (w ["lpstat", "-p", p]).rc = 0)
    (hm : (w ["lpstat", "-p", m]).rc ≠ 0) :
    ∀ acc, (List.foldlM c.class_add_member_step acc (pre ++ m :: post)) w
      = (.exit (.failJson (classMissingMemberMsg m (cname c))),
         memberProbeTrace c w pre
           ++ [⟨.queryExists, ["lpstat", "-p", m], w ["lpstat", "-p", m]⟩]) := by
  induction pre with
  | nil =>
    intro acc
    have hbeq : ((w ["lpstat", "-p", m]).rc == 0) = false := by
      simp [hm]
    simp [List.foldlM, CUPSObject.class_add_member_step, CUPSObject.existsQ,
      existsTarget, hbeq, memberProbeTrace]
  | cons p rest ih =>
    intro acc
    have hp : (w ["lpstat", "-p", p]).rc = 0 := hpre p (List.mem_cons_self p rest)
    have hbeq : ((w ["lpstat", "-p", p]).rc == 0) = true := by
      simp [hp]
    have ih' := ih (fun q hq => hpre q (List.mem_cons_of_mem p hq))
    simp [List.foldlM, CUPSObject.class_add_member_step, CUPSObject.existsQ,
      existsTarget, hbeq, memberProbeTrace, ih']

/-- C5 (amended): installing an absent class under `state=present` whose
member list is `pre ++ [m] ++ post` with every member of `pre` existing and
`m` missing fails fatally with the error naming both `m` and the class — but
only when iteration reaches `m`: exactly one add-to-class command per member
of `pre` has already been issued (in declared order), and none for `m` or any
later member. -/
theorem c5_missing_member_partial_adds (c : CUPSObject) (w : WorldQ)
    (pre : List String) (m : String) (post : List String)
    (hmem : c.class_members = pre ++ m :: post)
    (habs : (w ["lpstat", "-p", cname c]).rc ≠ 0)
    (hpre : ∀ p ∈ pre, (w ["lpstat", "-p", p]).rc = 0)
    (hm : (w ["lpstat", "-p", m]).rc ≠ 0) :
    c.class_install w =
      (.exit (.failJson (classMissingMemberMsg m (cname c))),
       ⟨.queryExists, ["lpstat", "-p", cname c], w ["lpstat", "-p", cname c]⟩ ::
         ⟨.queryExists, ["lpstat", "-p", cname c], w ["lpstat", "-p", cname c]⟩ ::
           (memberProbeTrace c w pre
             ++ [⟨.queryExists, ["lpstat", "-p", m], w ["lpstat", "-p", m]⟩]))
    ∧ (((c.class_install w).2.filter (fun e => e.tag = CmdTag.classAdd)).map (fun e => e.argv)
        = pre.map (fun p => ["lpadmin", "-p", p, "-c", cname c])) := by
  have hne : c.class_members ≠ [] := by simp [hmem]
  have hbeq : ((w ["lpstat", "-p", cname c]).rc == 0) = false := by simp [habs]
  have hfold := class_add_fold c w pre m post hpre hm
    ((none : Option Int), "", "")
  have hrun : c.class_install w =
      (.exit (.failJson (classMissingMemberMsg m (cname c))),
       ⟨.queryExists, ["lpstat", "-p", cname c], w ["lpstat", "-p", cname c]⟩ ::
         ⟨.queryExists, ["lpstat", "-p", cname c], w ["lpstat", "-p", cname c]⟩ ::
           (memberProbeTrace c w pre
             ++ [⟨.queryExists, ["lpstat", "-p", m], w ["lpstat", "-p", m]⟩])) := by
    simp only [CUPSObject.class_install, CUPSObject.class_install_members,
      CUPSObject.existsQ, existsTarget, M_bind_apply, runCmd_apply, M_pure_apply,
      M_ite_apply, M_failJson_apply, hne, hmem, hfold, hbeq]
    simp [hbeq, hmem, hfold]
  refine ⟨hrun, ?_⟩
  rw [hrun]
  simp [List.filter_cons, List.filter_append, memberProbeTrace_adds]

/-- Witness for C5's amended theorem at the concrete `[p1, missing]` class. -/
theorem c5_missing_member_witness :
    CUPSObject.class_install (CUPSObject.ofParams (applyDefaults c5Input)) c5World =
      (.exit (.failJson (classMissingMemberMsg "missing" "K")),
       ⟨.queryExists, ["lpstat", "-p", "K"], c5World ["lpstat", "-p", "K"]⟩ ::
         ⟨.queryExists, ["lpstat", "-p", "K"], c5World ["lpstat", "-p", "K"]⟩ ::
           (memberProbeTrace (CUPSObject.ofParams (applyDefaults c5Input)) c5World ["p1"]
             ++ [⟨.queryExists, ["lpstat", "-p", "missing"],
                   c5World ["lpstat", "-p", "missing"]⟩]))
    ∧ ((CUPSObject.class_install (CUPSObject.ofParams (applyDefaults c5Input)) c5World).2.filter
          (fun e => e.tag = CmdTag.classAdd)).map (fun e => e.argv)
        = [["lpadmin", "-p", "p1", "-c", "K"]] :=
  c5_missing_member_partial_adds _ c5World ["p1"] "missing" [] (by decide) (by decide)
    (by decide) (by decide)

/-! ## C10: the uncheckable-attribute reassertion command -/

/-- A pair whose first component is known is the evident pair. -/
theorem pair_of_fst_ok {α : Type} {x : Outcome α × List TraceEntry} {a : α}
    (h : x.1 = .ok a) : x = (.ok a, x.2) := by
  rw [← h]

/-- The supply-level flags are booleans, so the printer reassertion argv
always extends the base command. -/
theorem mandatory_printer_cmd_len (c : CUPSObject) :
    7 ≤ c.mandatory_printer_cmd.length := by
  unfold CUPSObject.mandatory_printer_cmd
  split_ifs <;> simp

/-- The printer reassertion command never equals the bare base command. -/
theorem mandatory_printer_cmd_ne (c : CUPSObject) :
    c.mandatory_printer_cmd ≠ ["lpadmin", "-p", cname c] := by
  intro h
  have h1 := congrArg List.length h
  have h2 := mandatory_printer_cmd_len c
  simp at h1
  omega

/-- The supply-level flags are booleans, so the class reassertion argv always
extends the base command. -/
theorem mandatory_class_cmd_len (c : CUPSObject) :
    7 ≤ c.mandatory_class_cmd.length := by
  unfold CUPSObject.mandatory_class_cmd
  split_ifs <;> simp

/-- The class reassertion command never equals the bare base command. -/
theorem mandatory_class_cmd_ne (c : CUPSObject) :
    c.mandatory_class_cmd ≠ ["lpadmin", "-p", cname c] := by
  intro h
  have h1 := congrArg List.length h
  have h2 := mandatory_class_cmd_len c
  simp at h1
  omega

/-- C10 (confirmed): the reassertion of the uncheckable attribute set
(supply-reporting flags, job limits/quota, access policy) is the only command
whose failure aborts the run, and its output never reaches the transcript:
(1) printer path: a non-empty stderr from the reassertion command aborts the
whole run with the dedicated fatal message;
(2) on a converged printer the run ends `ok` with an empty transcript — the
reassertion command's stdout/stderr (arbitrary stdout allowed) are not merged;
(3) a mismatched printer's delete command may itself report any stderr and the
run still ends `ok`, that stderr merged into the transcript — no abort;
(4) class path: a non-empty stderr from the class reassertion command likewise
aborts the run fatally. -/
theorem c10_mandatory_abort_and_isolation (c : CUPSObject) (w : WorldQ)
    (hex : (w ["lpstat", "-p", cname c]).rc = 0) :
    ((∃ b, (c.printer_check_cups_options w).1 = .ok b) →
      (w c.mandatory_printer_cmd).err ≠ "" →
      (c.printer_install w).1 =
        .exit (.failJson (mandatoryFailMsgPrinter c.mandatory_printer_cmd
          (w c.mandatory_printer_cmd).err)))
    ∧ ((c.printer_check_cups_options w).1 = .ok true →
        (c.printer_check_options w).1 = .ok true →
        (w c.mandatory_printer_cmd).err = "" →
        (c.printer_install w).1 = .ok (none, "", ""))
    ∧ ((c.printer_check_cups_options w).1 = .ok false →
        (c.printer_check_options w).1 = .ok true →
        (w c.mandatory_printer_cmd).err = "" →
        (c.printer_install w).1 =
          .ok (some (w ["lpadmin", "-x", cname c]).rc,
               accum "" (w ["lpadmin", "-x", cname c]).out,
               accum "" (w ["lpadmin", "-x", cname c]).err))
    ∧ (c.class_members ≠ [] →
        (∃ b, (c.class_check_cups_options w).1 = .ok b) →
        (w c.mandatory_class_cmd).err ≠ "" →
        (c.class_install w).1 =
          .exit (.failJson (mandatoryFailMsgClass c.mandatory_class_cmd
            (w c.mandatory_class_cmd).err))) := by
  have hbeq : ((w ["lpstat", "-p", cname c]).rc == 0) = true := by simp [hex]
  refine ⟨?_, ?_, ?_, ?_⟩
  · rintro ⟨b, hchk⟩ herr
    obtain ⟨tc, hchk'⟩ : ∃ t, c.printer_check_cups_options w = (.ok b, t) :=
      ⟨_, pair_of_fst_ok hchk⟩
    by_cases huri : c.uri = none <;>
      cases b <;>
        simp [CUPSObject.printer_install, CUPSObject.existsQ, existsTarget,
          CUPSObject.uninstall_run, CUPSObject.printer_install_mandatory_options,
          mandatory_printer_cmd_ne c, hbeq, hchk', herr, huri]
  · intro hchk hopt herr
    obtain ⟨tc, hchk'⟩ : ∃ t, c.printer_check_cups_options w = (.ok true, t) :=
      ⟨_, pair_of_fst_ok hchk⟩
    obtain ⟨topt, hopt'⟩ : ∃ t, c.printer_check_options w = (.ok true, t) :=
      ⟨_, pair_of_fst_ok hopt⟩
    by_cases huri : c.uri = none <;>
      simp [CUPSObject.printer_install, CUPSObject.existsQ, existsTarget,
        CUPSObject.uninstall_run, CUPSObject.printer_install_mandatory_options,
        mandatory_printer_cmd_ne c, hbeq, hchk', hopt', herr, huri]
  · intro hchk hopt herr
    obtain ⟨tc, hchk'⟩ : ∃ t, c.printer_check_cups_options w = (.ok false, t) :=
      ⟨_, pair_of_fst_ok hchk⟩
    obtain ⟨topt, hopt'⟩ : ∃ t, c.printer_check_options w = (.ok true, t) :=
      ⟨_, pair_of_fst_ok hopt⟩
    by_cases huri : c.uri = none <;>
      simp [CUPSObject.printer_install, CUPSObject.existsQ, existsTarget,
        CUPSObject.uninstall_run, CUPSObject.printer_install_mandatory_options,
        mandatory_printer_cmd_ne c, hbeq, hchk', hopt', herr, huri]
  · rintro hne ⟨b, hchk⟩ herr
    obtain ⟨tc, hchk'⟩ : ∃ t, c.class_check_cups_options w = (.ok b, t) :=
      ⟨_, pair_of_fst_ok hchk⟩
    cases b <;>
      simp [CUPSObject.class_install, CUPSObject.existsQ, existsTarget,
        CUPSObject.uninstall_run, CUPSObject.class_install_mandatory_options,
        mandatory_class_cmd_ne c, hbeq, hchk', herr, hne]

set_option maxRecDepth 8000 in
/-- Witness for C10: a non-empty stderr from the reassertion command aborts
the otherwise-converged printer run with the dedicated fatal message. -/
theorem c10_mandatory_abort_witness :
    (CUPSObject.printer_install c10Obj c10World).1 =
      .exit (.failJson (mandatoryFailMsgPrinter (CUPSObject.mandatory_printer_cmd c10Obj)
        "boom")) :=
  (c10_mandatory_abort_and_isolation c10Obj c10World (by decide)).1
    ⟨true, by decide⟩ (by decide)

/-! ## C1: idempotence of a converged `present` run -/

set_option maxRecDepth 8000 in
/-- C1 (counterexample): against a subsystem the first run converged, the
second identical `present` run does report changed=false — but it does NOT
issue zero mutating commands: it unconditionally re-issues the
uncheckable-attribute reassertion `lpadmin` command. -/
theorem c1_counterexample :
    (runModule c1Input c1World).1 =
      .ok { state := "present", purge := false, printer_or_class := some "printer",
            name := some "zebra", changed := false, stdout := none, stderr := none }
    ∧ ((runModule c1Input c1World).2.filter isMutatingEntry).map (fun e => e.argv)
        = [["lpadmin", "-p", "zebra", "-o", "cupsIPPSupplies=true",
            "-o", "cupsSNMPSupplies=true"]] := by
  decide

/-- Sequencing preserves "no entry satisfies `q`" in the recorded trace. -/
theorem bind_filter_nil (x : M α) (g : α → M β) (w : WorldQ) (q : TraceEntry → Bool)
    (hx : ((x w).2).filter q = []) (hg : ∀ a, (((g a w).2)).filter q = []) :
    (((x >>= g) w).2).filter q = [] := by
  show ((M.bind x g w).2).filter q = []
  unfold M.bind
  rcases hxw : x w with ⟨o, t⟩
  rw [hxw] at hx
  cases o
  · simp only [List.filter_append, hx, List.nil_append]
    exact hg _
  · exact hx

/-- `lpoptions -p` polling issues only read queries. -/
theorem cups_object_get_cups_options_queries (c : CUPSObject) (w : WorldQ) :
    ((c.cups_object_get_cups_options w).2).filter isMutatingEntry = [] := by
  unfold CUPSObject.cups_object_get_cups_options
  apply bind_filter_nil
  · simp [isMutatingEntry, CmdTag.isMut]
  · intro r
    cases shlexSplit r.out <;> simp

/-- The driver-catalog read issues only read queries. -/
theorem printer_get_installed_drivers_queries (c : CUPSObject) (w : WorldQ) :
    ((c.printer_get_installed_drivers w).2).filter isMutatingEntry = [] := by
  unfold CUPSObject.printer_get_installed_drivers
  apply bind_filter_nil
  · simp [isMutatingEntry, CmdTag.isMut]
  · intro r
    cases parseDriverCatalog r.out <;> simp

/-- Make-and-model resolution issues only read queries. -/
theorem printer_get_make_and_model_queries (c : CUPSObject) (w : WorldQ) :
    ((c.printer_get_make_and_model w).2).filter isMutatingEntry = [] := by
  unfold CUPSObject.printer_get_make_and_model
  simp only [M_ite_apply]
  split_ifs
  · simp
  · simp
  · apply bind_filter_nil _ _ _ _ (printer_get_installed_drivers_queries c w)
    intro ds
    rcases c.model with _ | m
    · simp
    · rcases hd : dictFind ds m with _ | drec
      · simp [hd]
      · rcases hm2 : dictFind drec "make-and-model" with _ | mam <;> simp [hd, hm2]

/-- The printer comparison issues only read queries. -/
theorem printer_check_cups_options_queries (c : CUPSObject) (w : WorldQ) :
    ((c.printer_check_cups_options w).2).filter isMutatingEntry = [] := by
  unfold CUPSObject.printer_check_cups_options
  apply bind_filter_nil _ _ _ _ (printer_get_make_and_model_queries c w)
  intro mam
  apply bind_filter_nil _ _ _ _ (cups_object_get_cups_options_queries c w)
  intro live
  simp

/-- The printer-specific-options read issues only read queries. -/
theorem printer_get_specific_options_queries (c : CUPSObject) (w : WorldQ) :
    ((c.printer_get_specific_options w).2).filter isMutatingEntry = [] := by
  unfold CUPSObject.printer_get_specific_options
  apply bind_filter_nil
  · simp [isMutatingEntry, CmdTag.isMut]
  · intro r
    cases parseSpecificOptions r.out <;> simp

/-- The printer-specific-options comparison issues only read queries. -/
theorem printer_check_options_queries (c : CUPSObject) (w : WorldQ) :
    ((c.printer_check_options w).2).filter isMutatingEntry = [] := by
  unfold CUPSObject.printer_check_options
  apply bind_filter_nil _ _ _ _ (printer_get_specific_options_queries c w)
  intro live
  simp

/-- The member-list read issues only read queries. -/
theorem class_get_current_members_queries (c : CUPSObject) (w : WorldQ) :
    ((c.class_get_current_members w).2).filter isMutatingEntry = [] := by
  unfold CUPSObject.class_get_current_members
  apply bind_filter_nil
  · simp [isMutatingEntry, CmdTag.isMut]
  · intro r
    simp only [M_ite_apply]
    split_ifs
    · simp
    · cases shlexSplit r.out <;> simp

/-- The class comparison issues only read queries. -/
theorem class_check_cups_options_queries (c : CUPSObject) (w : WorldQ) :
    ((c.class_check_cups_options w).2).filter isMutatingEntry = [] := by
  unfold CUPSObject.class_check_cups_options
  apply bind_filter_nil _ _ _ _ (cups_object_get_cups_options_queries c w)
  intro live
  apply bind_filter_nil _ _ _ _ (class_get_current_members_queries c w)
  intro mems
  simp

/-- C1 (amended): a `present` run against an already-converged subsystem
(printer or class: it exists and both comparisons are satisfied) reports
changed=false with no stdout/stderr — but issues exactly ONE mutating command,
the unconditional uncheckable-attribute reassertion (no delete, no install,
no options-set command). -/
theorem c1_converged_run_reasserts_only (p : Params) (c : CUPSObject) (w : WorldQ)
    (hstate : p.state = "present") (hpurge : p.purge = false)
    (hmake : CUPSObject.make p = .ok c) :
    (p.printer_or_class = some "printer" →
      (w ["lpstat", "-p", cname c]).rc = 0 →
      (c.printer_check_cups_options w).1 = .ok true →
      (c.printer_check_options w).1 = .ok true →
      (w c.mandatory_printer_cmd).err = "" →
      (mainRun p false w).1 =
        .ok { state := p.state, purge := p.purge, printer_or_class := p.printer_or_class,
              name := c.name, changed := false, stdout := none, stderr := none }
      ∧ ((mainRun p false w).2).filter isMutatingEntry =
          [⟨.mandatoryPrinter, c.mandatory_printer_cmd, w c.mandatory_printer_cmd⟩])
    ∧ (p.printer_or_class = some "class" →
      c.class_members ≠ [] →
      (w ["lpstat", "-p", cname c]).rc = 0 →
      (c.class_check_cups_options w).1 = .ok true →
      (w c.mandatory_class_cmd).err = "" →
      (mainRun p false w).1 =
        .ok { state := p.state, purge := p.purge, printer_or_class := p.printer_or_class,
              name := c.name, changed := false, stdout := none, stderr := none }
      ∧ ((mainRun p false w).2).filter isMutatingEntry =
          [⟨.mandatoryClass, c.mandatory_class_cmd, w c.mandatory_class_cmd⟩]) := by
  constructor
  · intro hpoc hex hchk hopt herr
    have hbeq : ((w ["lpstat", "-p", cname c]).rc == 0) = true := by simp [hex]
    obtain ⟨tc, hchk'⟩ : ∃ t, c.printer_check_cups_options w = (.ok true, t) :=
      ⟨_, pair_of_fst_ok hchk⟩
    obtain ⟨topt, hopt'⟩ : ∃ t, c.printer_check_options w = (.ok true, t) :=
      ⟨_, pair_of_fst_ok hopt⟩
    have htc : tc.filter isMutatingEntry = [] := by
      have h := printer_check_cups_options_queries c w
      rw [hchk'] at h
      exact h
    have htopt : topt.filter isMutatingEntry = [] := by
      have h := printer_check_options_queries c w
      rw [hopt'] at h
      exact h
    by_cases huri : c.uri = none <;>
      constructor <;>
        simp [mainRun, hmake, hstate, hpurge, hpoc, CUPSObject.printer_install,
          CUPSObject.existsQ, existsTarget, CUPSObject.uninstall_run,
          CUPSObject.printer_install_mandatory_options, mandatory_printer_cmd_ne c,
          hbeq, hchk', hopt', herr, huri, List.filter_append, List.filter_cons,
          htc, htopt, isMutatingEntry, CmdTag.isMut]
  · intro hpoc hne hex hchk herr
    have hbeq : ((w ["lpstat", "-p", cname c]).rc == 0) = true := by simp [hex]
    obtain ⟨tc, hchk'⟩ : ∃ t, c.class_check_cups_options w = (.ok true, t) :=
      ⟨_, pair_of_fst_ok hchk⟩
    have htc : tc.filter isMutatingEntry = [] := by
      have h := class_check_cups_options_queries c w
      rw [hchk'] at h
      exact h
    constructor <;>
      simp [mainRun, hmake, hstate, hpurge, hpoc, CUPSObject.class_install,
        CUPSObject.existsQ, existsTarget, CUPSObject.uninstall_run,
        CUPSObject.class_install_mandatory_options, mandatory_class_cmd_ne c,
        hbeq, hchk', herr, hne, List.filter_append, List.filter_cons,
        htc, isMutatingEntry, CmdTag.isMut]

set_option maxRecDepth 8000 in
/-- Witness for C1's amended theorem at the concrete converged printer. -/
theorem c1_converged_run_witness :
    (mainRun (applyDefaults c1Input) false c1World).1 =
      .ok { state := "present", purge := false, printer_or_class := some "printer",
            name := some "zebra", changed := false, stdout := none, stderr := none }
    ∧ ((mainRun (applyDefaults c1Input) false c1World).2).filter isMutatingEntry =
        [⟨.mandatoryPrinter,
          CUPSObject.mandatory_printer_cmd (CUPSObject.ofParams (applyDefaults c1Input)),
          c1World (CUPSObject.mandatory_printer_cmd
            (CUPSObject.ofParams (applyDefaults c1Input)))⟩] :=
  (c1_converged_run_reasserts_only (applyDefaults c1Input)
      (CUPSObject.ofParams (applyDefaults c1Input)) c1World rfl rfl
      (make_applyDefaults c1Input)).1 rfl (by decide) (by decide) (by decide) (by decide)

/-! ## C2: the changed flag versus issued commands -/

set_option maxRecDepth 8000 in
/-- C2 (counterexample): a run that issues a mutating command (the
uncheckable-attribute reassertion) while still reporting changed=false —
refuting "changed iff at least one mutating command was issued". -/
theorem c2_counterexample :
    (runModule c1Input c1World).1 =
      .ok { state := "present", purge := false, printer_or_class := some "printer",
            name := some "zebra", changed := false, stdout := none, stderr := none }
    ∧ (runModule c1Input c1World).2.any isMutatingEntry = true := by
  decide

/-- Closing a case analysis: the computation recorded an `rc` and issued a
transcript command. -/
theorem cases_conclude_right (x : M (Option Int × String × String)) (w : WorldQ)
    (res : Option Int × String × String) (t : List TraceEntry) (n : Int)
    (rest : String × String)
    (h : x w = (.ok res, t))
    (hfst : (x w).1 = .ok (some n, rest))
    (hany : ((x w).2).any isTranscriptEntry = true) :
    (res = (none, "", "") ∧ t.any isTranscriptEntry = false)
    ∨ ((∃ m, res.1 = some m) ∧ t.any isTranscriptEntry = true) := by
  rw [h] at hfst hany
  simp only [Outcome.ok.injEq] at hfst
  exact Or.inr ⟨⟨n, by rw [hfst]⟩, by simpa using hany⟩

/-- Closing a case analysis: the computation did nothing. -/
theorem cases_conclude_left (x : M (Option Int × String × String)) (w : WorldQ)
    (res : Option Int × String × String) (t : List TraceEntry)
    (h : x w = (.ok res, t))
    (hfst : (x w).1 = .ok (none, "", ""))
    (hany : ((x w).2).any isTranscriptEntry = false) :
    (res = (none, "", "") ∧ t.any isTranscriptEntry = false)
    ∨ ((∃ m, res.1 = some m) ∧ t.any isTranscriptEntry = true) := by
  rw [h] at hfst hany
  simp only [Outcome.ok.injEq] at hfst
  exact Or.inl ⟨hfst, by simpa using hany⟩

/-- A computation that exits cannot have completed normally. -/
theorem cases_exit_absurd {α : Type} (x : M α) (w : WorldQ) (a : α)
    (t : List TraceEntry) (e : ModuleExit)
    (h : x w = (.ok a, t)) (hfst : (x w).1 = .exit e) : False := by
  rw [h] at hfst
  exact absurd hfst (by simp)

/-- Every normally-completed `printer_install` run either did nothing
(`rc=None`, empty transcript, no transcript command in the trace) or recorded
an `rc` and issued at least one transcript command. -/
theorem printer_install_cases (c : CUPSObject) (w : WorldQ)
    (res : Option Int × String × String) (t : List TraceEntry)
    (h : c.printer_install w = (.ok res, t)) :
    (res = (none, "", "") ∧ t.any isTranscriptEntry = false)
    ∨ ((∃ m, res.1 = some m) ∧ t.any isTranscriptEntry = true) := by
  cases he : ((w ["lpstat", "-p", cname c]).rc == 0)
  · -- the printer does not exist
    by_cases huri : c.uri = none
    · exact absurd (cases_exit_absurd _ w res t (.failJson uriRequiredMsg) h (by
        simp [CUPSObject.printer_install, CUPSObject.existsQ, existsTarget, huri, he])) id
    · -- install path: the install command is always issued
      rcases hopt : c.printer_check_options w with ⟨oo, t2⟩
      cases oo with
      | exit e =>
        exact absurd (cases_exit_absurd _ w res t e h (by
          simp [CUPSObject.printer_install, CUPSObject.existsQ, existsTarget,
            huri, he, hopt])) id
      | ok bb =>
        have hany : ((c.printer_install w).2).any isTranscriptEntry = true := by
          cases bb <;>
            simp [CUPSObject.printer_install, CUPSObject.existsQ, existsTarget, huri, he, hopt,
              isTranscriptEntry, List.any_append]
        cases bb with
        | false =>
          exact cases_conclude_right _ w res t (w c.printer_install_options_cmd).rc
            (accum (accum "" (w c.printer_install_cmd).out) (w c.printer_install_options_cmd).out,
             accum (accum "" (w c.printer_install_cmd).err) (w c.printer_install_options_cmd).err)
            h (by
              simp [CUPSObject.printer_install, CUPSObject.existsQ, existsTarget,
                huri, he, hopt]) hany
        | true =>
          exact cases_conclude_right _ w res t (w c.printer_install_cmd).rc
            (accum "" (w c.printer_install_cmd).out, accum "" (w c.printer_install_cmd).err)
            h (by
              simp [CUPSObject.printer_install, CUPSObject.existsQ, existsTarget,
                huri, he, hopt]) hany
  · -- the printer exists
    rcases hchk : c.printer_check_cups_options w with ⟨oc, tc⟩
    cases oc with
    | exit e =>
      by_cases huri : c.uri = none <;>
        exact absurd (cases_exit_absurd _ w res t e h (by
          simp [CUPSObject.printer_install, CUPSObject.existsQ, existsTarget,
            huri, he, hchk])) id
    | ok b =>
      have htc : tc.any isTranscriptEntry = false := by
        apply no_mut_no_transcript
        have hq := printer_check_cups_options_queries c w
        rw [hchk] at hq
        exact hq
      by_cases herr : (w c.mandatory_printer_cmd).err = ""
      · rcases hopt : c.printer_check_options w with ⟨oo, t2⟩
        cases oo with
        | exit e =>
          refine absurd (cases_exit_absurd _ w res t e h ?_) id
          by_cases huri : c.uri = none <;>
            cases b <;>
              simp [CUPSObject.printer_install, CUPSObject.existsQ, existsTarget,
                CUPSObject.printer_install_mandatory_options, CUPSObject.uninstall_run,
                mandatory_printer_cmd_ne c, huri, he, hchk, herr, hopt]
        | ok bb =>
          have ht2 : t2.any isTranscriptEntry = false := by
            apply no_mut_no_transcript
            have hq := printer_check_options_queries c w
            rw [hopt] at hq
            exact hq
          cases b with
          | false =>
            -- mismatch: the delete command is always issued
            have hany : ((c.printer_install w).2).any isTranscriptEntry = true := by
              by_cases huri : c.uri = none <;>
                cases bb <;>
                  simp [CUPSObject.printer_install, CUPSObject.existsQ, existsTarget,
                    CUPSObject.printer_install_mandatory_options, CUPSObject.uninstall_run,
                    mandatory_printer_cmd_ne c, huri, he, hchk, herr, hopt,
                    isTranscriptEntry, List.any_append]
            cases bb with
            | false =>
              refine cases_conclude_right _ w res t (w c.printer_install_options_cmd).rc
                (accum (accum "" (w ["lpadmin", "-x", cname c]).out)
                    (w c.printer_install_options_cmd).out,
                 accum (accum "" (w ["lpadmin", "-x", cname c]).err)
                    (w c.printer_install_options_cmd).err)
                h ?_ hany
              by_cases huri : c.uri = none <;>
                simp [CUPSObject.printer_install, CUPSObject.existsQ, existsTarget,
                  CUPSObject.printer_install_mandatory_options, CUPSObject.uninstall_run,
                  mandatory_printer_cmd_ne c, huri, he, hchk, herr, hopt]
            | true =>
              refine cases_conclude_right _ w res t (w ["lpadmin", "-x", cname c]).rc
                (accum "" (w ["lpadmin", "-x", cname c]).out,
                 accum "" (w ["lpadmin", "-x", cname c]).err)
                h ?_ hany
              by_cases huri : c.uri = none <;>
                simp [CUPSObject.printer_install, CUPSObject.existsQ, existsTarget,
                  CUPSObject.printer_install_mandatory_options, CUPSObject.uninstall_run,
                  mandatory_printer_cmd_ne c, huri, he, hchk, herr, hopt]
          | true =>
            cases bb with
            | true =>
              -- fully converged: nothing changed
              refine cases_conclude_left _ w res t h ?_ ?_
              · by_cases huri : c.uri = none <;>
                  simp [CUPSObject.printer_install, CUPSObject.existsQ, existsTarget,
                    CUPSObject.printer_install_mandatory_options, CUPSObject.uninstall_run,
                    mandatory_printer_cmd_ne c, huri, he, hchk, herr, hopt]
              · by_cases huri : c.uri = none <;>
                  simp [CUPSObject.printer_install, CUPSObject.existsQ, existsTarget,
                    CUPSObject.printer_install_mandatory_options, CUPSObject.uninstall_run,
                    mandatory_printer_cmd_ne c, huri, he, hchk, herr, hopt,
                    isTranscriptEntry, List.any_append, htc, ht2]
            | false =>
              -- only the options-set command
              have hany : ((c.printer_install w).2).any isTranscriptEntry = true := by
                by_cases huri : c.uri = none <;>
                  simp [CUPSObject.printer_install, CUPSObject.existsQ, existsTarget,
                    CUPSObject.printer_install_mandatory_options, CUPSObject.uninstall_run,
                    mandatory_printer_cmd_ne c, huri, he, hchk, herr, hopt,
                    isTranscriptEntry, List.any_append]
              refine cases_conclude_right _ w res t (w c.printer_install_options_cmd).rc
                (accum "" (w c.printer_install_options_cmd).out,
                 accum "" (w c.printer_install_options_cmd).err)
                h ?_ hany
              by_cases huri : c.uri = none <;>
                simp [CUPSObject.printer_install, CUPSObject.existsQ, existsTarget,
                  CUPSObject.printer_install_mandatory_options, CUPSObject.uninstall_run,
                  mandatory_printer_cmd_ne c, huri, he, hchk, herr, hopt]
      · -- the reassertion command aborts: contradicts normal completion
        refine absurd (cases_exit_absurd _ w res t
          (.failJson (mandatoryFailMsgPrinter c.mandatory_printer_cmd
            (w c.mandatory_printer_cmd).err)) h ?_) id
        by_cases huri : c.uri = none <;>
          cases b <;>
            simp [CUPSObject.printer_install, CUPSObject.existsQ, existsTarget,
              CUPSObject.printer_install_mandatory_options, CUPSObject.uninstall_run,
              mandatory_printer_cmd_ne c, huri, he, hchk, herr]

/-- Every normally-completed member loop either had no members (and did
nothing) or recorded an `rc` and issued at least one add command. -/
theorem class_fold_cases (c : CUPSObject) (w : WorldQ) :
    ∀ (ms : List String) (acc v : Option Int × String × String) (t : List TraceEntry),
      (List.foldlM c.class_add_member_step acc ms) w = (.ok v, t) →
      (ms = [] ∧ v = acc ∧ t = [])
      ∨ ((∃ n, v.1 = some n) ∧ t.any isTranscriptEntry = true) := by
  intro ms
  induction ms with
  | nil =>
    intro acc v t h
    simp only [List.foldlM, M_pure_apply, Prod.mk.injEq, Outcome.ok.injEq] at h
    exact Or.inl ⟨rfl, h.1.symm, h.2.symm⟩
  | cons m rest ih =>
    intro acc v t h
    cases he : ((w ["lpstat", "-p", m]).rc == 0)
    · exact absurd (cases_exit_absurd _ w v t
        (.failJson (classMissingMemberMsg m (cname c))) h (by
          simp [List.foldlM, CUPSObject.class_add_member_step, CUPSObject.existsQ,
            existsTarget, he])) id
    · rcases hr : (List.foldlM c.class_add_member_step
          ((some (w ["lpadmin", "-p", m, "-c", cname c]).rc : Option Int),
           accum acc.2.1 (w ["lpadmin", "-p", m, "-c", cname c]).out,
           accum acc.2.2 (w ["lpadmin", "-p", m, "-c", cname c]).err) rest) w with ⟨o2, t2⟩
      cases o2 with
      | exit e =>
        exact absurd (cases_exit_absurd _ w v t e h (by
          simp [List.foldlM, CUPSObject.class_add_member_step, CUPSObject.existsQ,
            existsTarget, he, hr])) id
      | ok v2 =>
        have hcomp : (List.foldlM c.class_add_member_step acc (m :: rest)) w
            = (.ok v2, ⟨.queryExists, ["lpstat", "-p", m], w ["lpstat", "-p", m]⟩ ::
                ⟨.classAdd, ["lpadmin", "-p", m, "-c", cname c],
                  w ["lpadmin", "-p", m, "-c", cname c]⟩ :: t2) := by
          simp [List.foldlM, CUPSObject.class_add_member_step, CUPSObject.existsQ,
            existsTarget, he, hr]
        rw [hcomp] at h
        simp only [Prod.mk.injEq, Outcome.ok.injEq] at h
        obtain ⟨hv, ht⟩ := h
        refine Or.inr ⟨?_, ?_⟩
        · rcases ih _ v2 t2 hr with ⟨-, hv2, -⟩ | ⟨⟨n, hn⟩, -⟩
          · exact ⟨(w ["lpadmin", "-p", m, "-c", cname c]).rc, by rw [← hv, hv2]⟩
          · exact ⟨n, by rw [← hv]; exact hn⟩
        · rw [← ht]
          simp [isTranscriptEntry]

/-- Every normally-completed `class_install` run either did nothing or
recorded an `rc` and issued at least one transcript command. -/
theorem class_install_cases (c : CUPSObject) (w : WorldQ)
    (res : Option Int × String × String) (t : List TraceEntry)
    (h : c.class_install w = (.ok res, t)) :
    (res = (none, "", "") ∧ t.any isTranscriptEntry = false)
    ∨ ((∃ m, res.1 = some m) ∧ t.any isTranscriptEntry = true) := by
  by_cases hmem : c.class_members = []
  · exact absurd (cases_exit_absurd _ w res t (.failJson emptyClassMsg) h (by
      simp [CUPSObject.class_install, hmem])) id
  · cases he : ((w ["lpstat", "-p", cname c]).rc == 0)
    · -- the class does not exist: the member loop runs
      rcases hf : (List.foldlM c.class_add_member_step
          ((none : Option Int), "", "") c.class_members) w with ⟨of, tf⟩
      cases of with
      | exit e =>
        exact absurd (cases_exit_absurd _ w res t e h (by
          simp [CUPSObject.class_install, CUPSObject.class_install_members,
            CUPSObject.existsQ, existsTarget, hmem, he, hf])) id
      | ok vf =>
        rcases class_fold_cases c w c.class_members _ vf tf hf with ⟨hnil, -, -⟩ | ⟨⟨n, hn⟩, hanyf⟩
        · exact absurd hnil hmem
        · have hfst : (c.class_install w).1 = .ok (vf.1, accum "" vf.2.1, accum "" vf.2.2) := by
            simp [CUPSObject.class_install, CUPSObject.class_install_members,
              CUPSObject.existsQ, existsTarget, hmem, he, hf]
          have hany : ((c.class_install w).2).any isTranscriptEntry = true := by
            simp [CUPSObject.class_install, CUPSObject.class_install_members,
              CUPSObject.existsQ, existsTarget, hmem, he, hf, List.any_append, hanyf]
          exact cases_conclude_right _ w res t n (accum "" vf.2.1, accum "" vf.2.2) h
            (by rw [hfst, hn]) hany
    · -- the class exists
      rcases hchk : c.class_check_cups_options w with ⟨oc, tc⟩
      cases oc with
      | exit e =>
        exact absurd (cases_exit_absurd _ w res t e h (by
          simp [CUPSObject.class_install, CUPSObject.existsQ, existsTarget,
            hmem, he, hchk])) id
      | ok b =>
        have htc : tc.any isTranscriptEntry = false := by
          apply no_mut_no_transcript
          have hq := class_check_cups_options_queries c w
          rw [hchk] at hq
          exact hq
        by_cases herr : (w c.mandatory_class_cmd).err = ""
        · cases b with
          | true =>
            refine cases_conclude_left _ w res t h ?_ ?_
            · simp [CUPSObject.class_install, CUPSObject.existsQ, existsTarget,
                CUPSObject.class_install_mandatory_options, mandatory_class_cmd_ne c,
                hmem, he, hchk, herr]
            · simp [CUPSObject.class_install, CUPSObject.existsQ, existsTarget,
                CUPSObject.class_install_mandatory_options, mandatory_class_cmd_ne c,
                hmem, he, hchk, herr, isTranscriptEntry, List.any_append, htc]
          | false =>
            have hany : ((c.class_install w).2).any isTranscriptEntry = true := by
              simp [CUPSObject.class_install, CUPSObject.existsQ, existsTarget,
                CUPSObject.class_install_mandatory_options, CUPSObject.uninstall_run,
                mandatory_class_cmd_ne c, hmem, he, hchk, herr,
                isTranscriptEntry, List.any_append]
            refine cases_conclude_right _ w res t (w ["lpadmin", "-x", cname c]).rc
              (accum "" (w ["lpadmin", "-x", cname c]).out,
               accum "" (w ["lpadmin", "-x", cname c]).err) h ?_ hany
            simp [CUPSObject.class_install, CUPSObject.existsQ, existsTarget,
              CUPSObject.class_install_mandatory_options, CUPSObject.uninstall_run,
              mandatory_class_cmd_ne c, hmem, he, hchk, herr]
        · refine absurd (cases_exit_absurd _ w res t
            (.failJson (mandatoryFailMsgClass c.mandatory_class_cmd
              (w c.mandatory_class_cmd).err)) h ?_) id
          cases b <;>
            simp [CUPSObject.class_install, CUPSObject.existsQ, existsTarget,
              CUPSObject.class_install_mandatory_options, CUPSObject.uninstall_run,
              mandatory_class_cmd_ne c, hmem, he, hchk, herr]

/-- Every normally-completed `state=absent` run either did nothing (the
object was absent) or recorded the delete command's `rc`. -/
theorem cups_object_uninstall_cases (c : CUPSObject) (w : WorldQ)
    (res : Option Int × String × String) (t : List TraceEntry)
    (h : c.cups_object_uninstall w = (.ok res, t)) :
    (res = (none, "", "") ∧ t.any isTranscriptEntry = false)
    ∨ ((∃ m, res.1 = some m) ∧ t.any isTranscriptEntry = true) := by
  cases he : ((w ["lpstat", "-p", cname c]).rc == 0)
  · refine cases_conclude_left _ w res t h ?_ ?_ <;>
      simp [CUPSObject.cups_object_uninstall, CUPSObject.existsQ, existsTarget, he,
        isTranscriptEntry]
  · refine cases_conclude_right _ w res t (w ["lpadmin", "-x", cname c]).rc
      ((w ["lpadmin", "-x", cname c]).out, (w ["lpadmin", "-x", cname c]).err) h ?_ ?_ <;>
      simp [CUPSObject.cups_object_uninstall, CUPSObject.existsQ, existsTarget,
        CUPSObject.uninstall_run, he, isTranscriptEntry]

/-- C2 (amended): for every normally-completed run without purge (present
printer/class or absent), the result's changed flag is true iff at least one
transcript command — a delete, install, member-add, class-settings or
options-set `lpadmin` command — was issued; the always-run
uncheckable-attribute reassertion never affects the flag.  The stdout/stderr
fields can be present only when such a command was issued. -/
theorem c2_changed_iff_transcript (p : Params) (c : CUPSObject) (w : WorldQ)
    (hpurge : p.purge = false)
    (hmake : CUPSObject.make p = .ok c)
    (hdisp : (p.state = "present"
        ∧ (p.printer_or_class = some "printer" ∨ p.printer_or_class = some "class"))
      ∨ p.state = "absent") :
    ∀ res trace, mainRun p false w = (.ok res, trace) →
      (res.changed = true ↔ trace.any isTranscriptEntry = true)
      ∧ (res.stdout.isSome = true → trace.any isTranscriptEntry = true)
      ∧ (res.stderr.isSome = true → trace.any isTranscriptEntry = true) := by
  rcases hdisp with ⟨hs, hk | hk⟩ | hs
  · -- present printer
    intro res trace h
    rcases hd : c.printer_install w with ⟨o, td⟩
    cases o with
    | exit e =>
      exact absurd (cases_exit_absurd _ w res trace e h (by
        simp [mainRun, hmake, hpurge, hs, hk, hd])) id
    | ok r =>
      have hm : mainRun p false w =
          (.ok { state := p.state, purge := p.purge, printer_or_class := p.printer_or_class,
                 name := c.name, changed := r.1.isSome,
                 stdout := if r.2.1 ≠ "" then some r.2.1 else none,
                 stderr := if r.2.2 ≠ "" then some r.2.2 else none }, td) := by
        simp [mainRun, hmake, hpurge, hs, hk, hd]
      rw [hm] at h
      simp only [Prod.mk.injEq, Outcome.ok.injEq] at h
      obtain ⟨hres, htr⟩ := h
      subst hres
      subst htr
      rcases printer_install_cases c w r td hd with ⟨hr, ha⟩ | ⟨⟨n, hn⟩, ha⟩
      · simp [hr, ha]
      · simp [hn, ha]
  · -- present class
    intro res trace h
    rcases hd : c.class_install w with ⟨o, td⟩
    cases o with
    | exit e =>
      exact absurd (cases_exit_absurd _ w res trace e h (by
        simp [mainRun, hmake, hpurge, hs, hk, hd])) id
    | ok r =>
      have hm : mainRun p false w =
          (.ok { state := p.state, purge := p.purge, printer_or_class := p.printer_or_class,
                 name := c.name, changed := r.1.isSome,
                 stdout := if r.2.1 ≠ "" then some r.2.1 else none,
                 stderr := if r.2.2 ≠ "" then some r.2.2 else none }, td) := by
        simp [mainRun, hmake, hpurge, hs, hk, hd]
      rw [hm] at h
      simp only [Prod.mk.injEq, Outcome.ok.injEq] at h
      obtain ⟨hres, htr⟩ := h
      subst hres
      subst htr
      rcases class_install_cases c w r td hd with ⟨hr, ha⟩ | ⟨⟨n, hn⟩, ha⟩
      · simp [hr, ha]
      · simp [hn, ha]
  · -- absent
    intro res trace h
    rcases hd : c.cups_object_uninstall w with ⟨o, td⟩
    cases o with
    | exit e =>
      exact absurd (cases_exit_absurd _ w res trace e h (by
        simp [mainRun, hmake, hpurge, hs, hd])) id
    | ok r =>
      have hm : mainRun p false w =
          (.ok { state := p.state, purge := p.purge, printer_or_class := p.printer_or_class,
                 name := c.name, changed := r.1.isSome,
                 stdout := if r.2.1 ≠ "" then some r.2.1 else none,
                 stderr := if r.2.2 ≠ "" then some r.2.2 else none }, td) := by
        simp [mainRun, hmake, hpurge, hs, hd]
      rw [hm] at h
      simp only [Prod.mk.injEq, Outcome.ok.injEq] at h
      obtain ⟨hres, htr⟩ := h
      subst hres
      subst htr
      rcases cups_object_uninstall_cases c w r td hd with ⟨hr, ha⟩ | ⟨⟨n, hn⟩, ha⟩
      · simp [hr, ha]
      · simp [hn, ha]

set_option maxRecDepth 8000 in
/-- Witness for C2's amended theorem at the concrete converged run. -/
theorem c2_changed_iff_witness :
    (({ state := "present", purge := false, printer_or_class := some "printer",
        name := some "zebra", changed := false, stdout := none,
        stderr := none } : RunResult).changed = true
      ↔ c1Trace.any isTranscriptEntry = true)
    ∧ (({ state := "present", purge := false, printer_or_class := some "printer",
          name := some "zebra", changed := false, stdout := none,
          stderr := none } : RunResult).stdout.isSome = true →
        c1Trace.any isTranscriptEntry = true)
    ∧ (({ state := "present", purge := false, printer_or_class := some "printer",
          name := some "zebra", changed := false, stdout := none,
          stderr := none } : RunResult).stderr.isSome = true →
        c1Trace.any isTranscriptEntry = true) :=
  c2_changed_iff_transcript (applyDefaults c1Input)
    (CUPSObject.ofParams (applyDefaults c1Input)) c1World rfl
    (make_applyDefaults c1Input) (Or.inl ⟨rfl, Or.inl rfl⟩) _ c1Trace (by decide)
